import Mathlib

/-!
# Verification of the SDFormat parser and domain model

A shallow embedding of the SDFormat library (files `parser.cc`, `Link.cc`,
`Material.cc`) into Lean 4, together with theorems settling the frozen
claims about it.

The element tree is modelled as a rose tree of named nodes with typed
attributes and an optional typed value.  Functions taken from the C++
sources keep their names.  Collaborators that live outside the given
sources (the `Element` accessor semantics, `Utils.cc` loaders, the
`MassMatrix3` validity check, the child entities of a link, the PBR
material sub-object and the domain `Model` accessors) are modelled from
the specification and are marked as such in their doc comments.
-/

/-- A 3-D pose (translation and Euler rotation).  The underlying
linear-algebra library is an external collaborator; scalar components are
modelled as rationals. -/
structure Pose3 where
  x : ℚ
  y : ℚ
  z : ℚ
  roll : ℚ
  pitch : ℚ
  yaw : ℚ
deriving DecidableEq, Repr

/-- The zero pose, the schema default for `<pose>`. -/
def Pose3.zero : Pose3 := ⟨0, 0, 0, 0, 0, 0⟩

/-- An RGBA color value. -/
structure Color where
  r : ℚ
  g : ℚ
  b : ℚ
  a : ℚ
deriving DecidableEq, Repr

/-- A typed value carried by an element or an attribute. -/
inductive Value where
  | str (s : String)
  | boolV (b : Bool)
  | num (q : ℚ)
  | pose (p : Pose3)
  | color (c : Color)
deriving DecidableEq, Repr

/-- The error kinds of the taxonomy that the claims mention. -/
inductive ErrorCode where
  | FILE_READ
  | ELEMENT_MISSING
  | ELEMENT_INVALID
  | ELEMENT_INCORRECT_TYPE
  | ATTRIBUTE_MISSING
  | ATTRIBUTE_INVALID
  | MERGE_INCLUDE_UNSUPPORTED
  | LINK_INERTIA_INVALID
  | RESERVED_NAME
  | DUPLICATE_NAME
deriving DecidableEq, Repr

/-- An element tree node: name, typed attributes (only the attributes that
are set are listed; an absent attribute reads as its schema default), an
optional typed value and an ordered child list. -/
inductive Element where
  | mk (name : String) (attrs : List (String × Value)) (value : Option Value)
      (children : List Element)

/-- The element's tag name. -/
def Element.name : Element → String
  | .mk n _ _ _ => n

/-- The element's set attributes. -/
def Element.attrs : Element → List (String × Value)
  | .mk _ a _ _ => a

/-- The element's textual (typed) value, when set. -/
def Element.value : Element → Option Value
  | .mk _ _ v _ => v

/-- The element's ordered child list. -/
def Element.children : Element → List Element
  | .mk _ _ _ c => c

/-- Render a value as a string, as `Param::GetAsString` does for
string-typed parameters.  All attributes compared or copied by the
functions below are string-typed. -/
def Value.asString : Value → String
  | .str s => s
  | _ => ""

/-- Look up an attribute by name: `some` when the attribute is set. -/
def Element.attrLookup (e : Element) (k : String) : Option Value :=
  (e.attrs.find? (fun p => p.1 == k)).map (fun p => p.2)

/-- Read a string attribute, defaulting to the empty string (the schema
default of every frame-reference attribute) when unset. -/
def Element.getAttr (e : Element) (k : String) : String :=
  match e.attrLookup k with
  | some v => v.asString
  | none => ""

/-- `true` when the attribute is set on the element. -/
def Element.hasAttrSet (e : Element) (k : String) : Bool :=
  (e.attrLookup k).isSome

/-- Set an attribute, replacing a previous binding of the same name. -/
def Element.setAttr (e : Element) (k : String) (v : Value) : Element :=
  .mk e.name ((e.attrs.filter (fun p => p.1 != k)) ++ [(k, v)]) e.value e.children

/-- `FindElement`: the first child with the given tag, read-only. -/
def Element.firstChildNamed (e : Element) (k : String) : Option Element :=
  e.children.find? (fun c => c.name == k)

/-- `HasElement`: whether a child with the given tag exists. -/
def Element.hasChild (e : Element) (k : String) : Bool :=
  (e.firstChildNamed k).isSome

/-- Replace the first child with the given tag by `f` of it; no-op when
absent (the `GetElementImpl` write path). -/
def Element.modifyFirstChildNamed (e : Element) (k : String) (f : Element → Element) :
    Element :=
  .mk e.name e.attrs e.value (go e.children)
where
  go : List Element → List Element
    | [] => []
    | c :: cs => if c.name == k then f c :: cs else c :: go cs

/-- Append a child element at the end of the child list (`InsertElement`). -/
def Element.appendChild (e : Element) (c : Element) : Element :=
  .mk e.name e.attrs e.value (e.children ++ [c])

/-- Modelled from the spec: the typed `Get<string>` accessor of `Element`
(§4.A, file `Element.cc` is not part of the given sources).  It returns
the pair (value, explicitly-set): a set attribute takes precedence, then
the value of the first child with that tag; otherwise the supplied
default with `false`. -/
def Element.getStrPair (e : Element) (k : String) (d : String) : String × Bool :=
  match e.attrLookup k with
  | some (.str s) => (s, true)
  | some _ => (d, false)
  | none =>
    match e.firstChildNamed k with
    | some c =>
      match c.value with
      | some (.str s) => (s, true)
      | _ => (d, false)
    | none => (d, false)

/-- Modelled from the spec: `Get<string>` returning only the value. -/
def Element.getStr (e : Element) (k : String) (d : String) : String :=
  (e.getStrPair k d).1

/-- Modelled from the spec: the typed `Get<double>` accessor (§4.A). -/
def Element.getQ (e : Element) (k : String) (d : ℚ) : ℚ :=
  match e.attrLookup k with
  | some (.num q) => q
  | some _ => d
  | none =>
    match e.firstChildNamed k with
    | some c =>
      match c.value with
      | some (.num q) => q
      | _ => d
    | none => d

/-- Modelled from the spec: the typed `Get<bool>` accessor (§4.A). -/
def Element.getBoolD (e : Element) (k : String) (d : Bool) : Bool :=
  match e.attrLookup k with
  | some (.boolV b) => b
  | some _ => d
  | none =>
    match e.firstChildNamed k with
    | some c =>
      match c.value with
      | some (.boolV b) => b
      | _ => d
    | none => d

/-- The element's own value read as a string (`Get<string>` with an empty
key), defaulting to the empty string. -/
def Element.valueStr (e : Element) : String :=
  match e.value with
  | some (.str s) => s
  | _ => ""

/-- The element's own value read as a pose, defaulting to zero. -/
def Element.valuePose (e : Element) : Pose3 :=
  match e.value with
  | some (.pose p) => p
  | _ => Pose3.zero

/-! ## The include resolver (`parser.cc`) -/

/-- Modelled from the spec: the accessors of the domain `Model` object that
`insertIncludedElement` consults after `Root::Load` of the included file
(the files `Model.cc` and `FrameSemantics.cc` are not part of the given
sources).  `resolvedPose` stands for the result of
`SemanticPose().Resolve`, the model pose under placement-frame semantics;
`canonicalLinkName` is `CanonicalLinkAndRelativeName().second`. -/
structure ModelDom where
  name : String
  rawPose : Pose3
  poseRelativeTo : String
  placementFrameName : String
  canonicalLinkName : String
  resolvedPose : Pose3
deriving DecidableEq, Repr

/-- `computeMergedModelProxyFrameName` from `parser.cc`: the name of the
synthetic frame inserted by a merge-include. -/
def computeMergedModelProxyFrameName (modelName : String) : String :=
  "_merged__" ++ modelName ++ "__model__"

/-- The `setAttributeToProxyFrame` lambda of `insertIncludedElement`:
rewrite the attribute to the proxy frame name when its current value is
`__model__`, or also when it is empty and `updateIfEmpty` is set. -/
def setAttributeToProxyFrame (proxyName attr : String) (updateIfEmpty : Bool)
    (e : Element) : Element :=
  if e.getAttr attr == "__model__" || (updateIfEmpty && e.getAttr attr == "") then
    e.setAttr attr (.str proxyName)
  else e

/-- A `<pose>` element as freshly created by `GetElement("pose")` from the
schema description: zero pose, no attribute set. -/
def defaultPoseElement : Element :=
  .mk "pose" [] (some (.pose Pose3.zero)) []

/-- `GetElement("pose")` on the write path: modify the first `<pose>`
child, creating it from the schema description when absent. -/
def Element.modifyOrCreatePose (e : Element) (f : Element → Element) : Element :=
  if e.hasChild "pose" then e.modifyFirstChildNamed "pose" f
  else e.appendChild (f defaultPoseElement)

/-- Rewrite the value of a joint `<parent>` or `<child>` reference child
when it is `__model__` (the `FindElement` / `Get` / `Set` block of
`insertIncludedElement`). -/
def rewriteJointRef (proxyName : String) (c : Element) : Element :=
  if c.valueStr == "__model__" then .mk c.name c.attrs (some (.str proxyName)) c.children
  else c

/-- The per-child rewriting performed by the hoisting loop of
`insertIncludedElement`: links and nested models get a `<pose>` (created
if needed) whose `relative_to` is redirected from `__model__`/empty to the
proxy frame; frames get `attached_to` redirected from `__model__`/empty
and an existing pose `relative_to` redirected only from `__model__`;
joints get pose `relative_to`, `__model__` parent/child references and
axis `expressed_in` redirected only from `__model__`. -/
def rewriteMergedChild (proxyName : String) (c : Element) : Element :=
  if c.name == "link" || c.name == "model" then
    c.modifyOrCreatePose (setAttributeToProxyFrame proxyName "relative_to" true)
  else if c.name == "frame" then
    let c1 := setAttributeToProxyFrame proxyName "attached_to" true c
    c1.modifyFirstChildNamed "pose" (setAttributeToProxyFrame proxyName "relative_to" false)
  else if c.name == "joint" then
    let c1 := c.modifyFirstChildNamed "pose"
        (setAttributeToProxyFrame proxyName "relative_to" false)
    let c2 := c1.modifyFirstChildNamed "parent" (rewriteJointRef proxyName)
    let c3 := c2.modifyFirstChildNamed "child" (rewriteJointRef proxyName)
    let c4 := c3.modifyFirstChildNamed "axis"
        (fun a => a.modifyFirstChildNamed "xyz"
          (setAttributeToProxyFrame proxyName "expressed_in" false))
    c4.modifyFirstChildNamed "axis2"
        (fun a => a.modifyFirstChildNamed "xyz"
          (setAttributeToProxyFrame proxyName "expressed_in" false))
  else c

/-- Whether the hoisting loop copies this child into the parent: only
named entity kinds and namespaced custom elements. -/
def shouldHoist (c : Element) : Bool :=
  c.name == "link" || c.name == "model" || c.name == "joint" ||
  c.name == "frame" || c.name == "gripper" || c.name == "plugin" ||
  c.name.data.any (fun ch => ch == ':')

/-- The synthetic proxy `<frame>` built by `insertIncludedElement` for a
merged model `m`. -/
def mergedModelProxyFrame (m : ModelDom) : Element :=
  let proxyName := computeMergedModelProxyFrameName m.name
  let modelPose := if m.placementFrameName != "" then m.resolvedPose else m.rawPose
  let relTo := if m.poseRelativeTo == "" then "__model__" else m.poseRelativeTo
  .mk "frame" [("name", .str proxyName), ("attached_to", .str m.canonicalLinkName)]
    none [.mk "pose" [("relative_to", .str relTo)] (some (.pose modelPose)) []]

/-- `insertIncludedElement` from `parser.cc`.  `includeRoot` is the root
element of the included file's SDF (`_includeSDF->Root()`), `merge` the
`merge` attribute, `loadedModel`/`loadErrors` the outcome of the
throwaway `Root::Load` of the included file (performed only on the merge
path), and `parent` the element holding the `<include>`.  Returns the
updated parent together with the errors recorded. -/
def insertIncludedElement (includeRoot : Option Element) (merge : Bool)
    (loadedModel : Option ModelDom) (loadErrors : List ErrorCode)
    (parent : Element) : Element × List ErrorCode :=
  match includeRoot with
  | none => (parent, [.FILE_READ])
  | some root =>
    match root.children.head? with
    | none => (parent, [.FILE_READ])
    | some firstElem =>
      if !merge then (parent.appendChild firstElem, [])
      else if firstElem.name != "model" then (parent, [.MERGE_INCLUDE_UNSUPPORTED])
      else if parent.name != "model" then (parent, [.MERGE_INCLUDE_UNSUPPORTED])
      else
        match loadedModel with
        | none => (parent, loadErrors ++ [.MERGE_INCLUDE_UNSUPPORTED])
        | some m =>
          let proxyName := computeMergedModelProxyFrameName m.name
          let hoisted := firstElem.children.filterMap
            (fun c => if shouldHoist c then some (rewriteMergedChild proxyName c) else none)
          (.mk parent.name parent.attrs parent.value
            (parent.children ++ [mergedModelProxyFrame m] ++ hoisted), loadErrors)

/-! ## Required-children completion in `readXml` (`parser.cc`) -/

/-- A schema child description as consulted by the required-children loop
of `readXml`: its required-cardinality string and the default element that
`AddElement` would materialize from it. -/
structure ElemDesc where
  required : String
  template : Element

/-- The tag name described by a child description. -/
def ElemDesc.name (d : ElemDesc) : String := d.template.name

/-- The final phase of `readXml` (`parser.cc`, "Check that all required
elements have been set"): walk the element descriptions; a missing child
whose cardinality is `1` or `+` is added with its schema defaults, except
that on a `<joint>` whose `type` is not `ball` it raises `ELEMENT_MISSING`
and aborts the branch (`readXml` returns `false`). -/
def addRequiredChildren (elem : Element) : List ElemDesc → Except ErrorCode Element
  | [] => .ok elem
  | d :: rest =>
    if (d.required == "1" || d.required == "+") && !(elem.hasChild d.name) then
      if elem.name == "joint" && elem.getStr "type" "" != "ball" then
        .error .ELEMENT_MISSING
      else addRequiredChildren (elem.appendChild d.template) rest
    else addRequiredChildren elem rest

/-! ## Non-merge include: top-level entity selection (`parser.cc`) -/

/-- One step of the top-level entity selection loop `readXml` runs for an
`<include>` that resolved to an SDF file: keep the first kind present as
the top-level element, recording `ELEMENT_INCORRECT_TYPE` for every
additional kind present. -/
def includeSelectStep (root : Element) (acc : Option Element × List ErrorCode)
    (t : String) : Option Element × List ErrorCode :=
  if root.hasChild t then
    match acc.1 with
    | none => (root.firstChildNamed t, acc.2)
    | some e => (some e, acc.2 ++ [.ELEMENT_INCORRECT_TYPE])
  else acc

/-- The top-level entity selection of `readXml` for an `<include>`: scan
`model`, `actor`, `light` in preference order; afterwards record
`ELEMENT_INCORRECT_TYPE` when a second entity of the chosen kind exists
(`GetNextElement` of the same tag), and `ELEMENT_MISSING` when no kind is
present. -/
def includeTopLevelSelection (root : Element) : Option Element × List ErrorCode :=
  let sel := ["model", "actor", "light"].foldl (includeSelectStep root) (none, [])
  match sel.1 with
  | none => (none, sel.2 ++ [.ELEMENT_MISSING])
  | some e =>
    if 2 ≤ (root.children.filter (fun c => c.name == e.name)).length then
      (some e, sel.2 ++ [.ELEMENT_INCORRECT_TYPE])
    else (some e, sel.2)

/-! ## Whole-tree checks and pre-checks of `readDoc` (`parser.cc`) -/

/-- `shouldValidateElement` from `parser.cc`: `<plugin>` elements and
namespaced (`:`-containing) elements are not validated. -/
def shouldValidateElement (e : Element) : Bool :=
  if e.name == "plugin" then false
  else if e.name.data.any (fun c => c == ':') then false
  else true

/-- Whether a character list contains two consecutive colons. -/
def listContainsDoubleColon : List Char → Bool
  | [] => false
  | [_] => false
  | c1 :: c2 :: rest =>
    (c1 == ':' && c2 == ':') || listContainsDoubleColon (c2 :: rest)

/-- Whether a string contains the deprecated `::` nesting delimiter
(`std::string::find("::") != npos`). -/
def containsDoubleColon (s : String) : Bool :=
  listContainsDoubleColon s.data

/-- `recursiveSiblingNoDoubleColonInNames` from `parser.cc`: `true` when
no validated element of the tree has a `name` attribute containing `::`.
An element that `shouldValidateElement` rejects is skipped together with
its whole subtree. -/
def recursiveSiblingNoDoubleColonInNames : Element → Bool
  | .mk n attrs v children =>
    let e : Element := .mk n attrs v children
    if !shouldValidateElement e then true
    else
      (!(e.hasAttrSet "name" && containsDoubleColon (e.getAttr "name"))) &&
      noDoubleColonList children
where
  noDoubleColonList : List Element → Bool
    | [] => true
    | c :: cs => recursiveSiblingNoDoubleColonInNames c && noDoubleColonList cs

/-- The claim's reading of the `::` rule, written from the spec sentence
"no attribute value named `name` may contain `::`": whether ANY element of
the tree (no exemptions) has a `name` attribute containing `::`. -/
def anyElementNameHasDoubleColon : Element → Bool
  | .mk n attrs v children =>
    let e : Element := .mk n attrs v children
    (e.hasAttrSet "name" && containsDoubleColon (e.getAttr "name")) ||
    anyList children
where
  anyList : List Element → Bool
    | [] => false
    | c :: cs => anyElementNameHasDoubleColon c || anyList cs

/-- Whether the original document version is at least 1.8
(`SemanticVersion` comparison on a major/minor pair; the version parser is
an external collaborator). -/
def versionAtLeast18 (v : ℕ × ℕ) : Bool :=
  decide (1 < v.1) || (v.1 == 1 && decide (8 ≤ v.2))

/-- The final whole-tree phase of `readDoc` (`parser.cc`): with an
original version of at least 1.8, a `::` found by
`recursiveSiblingNoDoubleColonInNames` records `RESERVED_NAME` and makes
`readDoc` return `false`; otherwise `readDoc` succeeds. -/
def readDocDoubleColonCheck (origVersion : ℕ × ℕ) (root : Element) :
    List ErrorCode × Bool :=
  if versionAtLeast18 origVersion && !recursiveSiblingNoDoubleColonInNames root then
    ([.RESERVED_NAME], false)
  else ([], true)

/-- `checkXmlFromRoot` from `parser.cc`, on the raw XML tree: a null root
passes; otherwise the first `<model>` child's first `<pose>` child must
not carry a non-empty `relative_to` attribute, else `ATTRIBUTE_INVALID`
is recorded and the check fails. -/
def checkXmlFromRoot (xmlRoot : Option Element) : List ErrorCode × Bool :=
  match xmlRoot with
  | none => ([], true)
  | some root =>
    match root.firstChildNamed "model" with
    | none => ([], true)
    | some m =>
      match m.firstChildNamed "pose" with
      | none => ([], true)
      | some p =>
        match p.attrLookup "relative_to" with
        | none => ([], true)
        | some rel => if rel.asString != "" then ([.ATTRIBUTE_INVALID], false) else ([], true)

/-- The pre-check stage of `readDoc` (`parser.cc`): when
`checkXmlFromRoot` fails, `ELEMENT_INVALID` is appended to its errors and
`readDoc` returns `false` before `readXml` runs. -/
def readDocPreCheck (xmlRoot : Option Element) : List ErrorCode × Bool :=
  let r := checkXmlFromRoot xmlRoot
  if !r.2 then (r.1 ++ [.ELEMENT_INVALID], false) else (r.1, true)

/-- The claim's reading of the pre-check, written from its words: some
top-level `<model>` child of `<sdf>` has some `<pose>` child carrying a
non-empty `relative_to` attribute. -/
def anyTopLevelModelPoseHasRelativeTo (root : Element) : Bool :=
  root.children.any (fun c =>
    c.name == "model" &&
    c.children.any (fun p => p.name == "pose" && p.getAttr "relative_to" != ""))

/-! ## The Link domain entity (`Link.cc`) -/

/-- Whether a character list begins with two underscores. -/
def charsStartWithDoubleUnderscore : List Char → Bool
  | c1 :: c2 :: _ => c1 == '_' && c2 == '_'
  | _ => false

/-- Modelled from the spec: reserved identifiers (§6) are `world`,
`__model__`, and any name beginning with `__` (file `Utils.cc` with
`isReservedName` is not part of the given sources). -/
def isReservedName (s : String) : Bool :=
  s == "world" || s == "__model__" || charsStartWithDoubleUnderscore s.data

/-- Modelled from the spec: `loadName` of `Utils.cc` (not part of the
given sources) reads the `name` attribute, returning the pair (value,
was-set). -/
def loadName (e : Element) : String × Bool :=
  match e.attrLookup "name" with
  | some v => (v.asString, true)
  | none => ("", false)

/-- Modelled from the spec: `loadPose` of `Utils.cc` (not part of the
given sources) reads a raw pose and its `relative_to` attribute, either
from the given element when it is itself a `<pose>` or from its first
`<pose>` child, defaulting to the zero pose in the scope-default frame. -/
def loadPose (e : Element) : Pose3 × String :=
  let p? := if e.name == "pose" then some e else e.firstChildNamed "pose"
  match p? with
  | none => (Pose3.zero, "")
  | some p => (p.valuePose, p.getAttr "relative_to")

/-- A symmetric 3×3 mass matrix together with the mass, as extracted by
`Link::Load`. -/
structure MassMatrix where
  mass : ℚ
  ixx : ℚ
  iyy : ℚ
  izz : ℚ
  ixy : ℚ
  ixz : ℚ
  iyz : ℚ
deriving DecidableEq, Repr

/-- Modelled from the spec: `MassMatrix3::IsValid` of the external
linear-algebra collaborator; the spec's invariant is that the mass matrix
is positive-definite, checked here by a positive mass and the leading
principal minors of the symmetric inertia matrix. -/
def MassMatrix.isValid (m : MassMatrix) : Bool :=
  decide (0 < m.mass) && decide (0 < m.ixx) &&
  decide (0 < m.ixx * m.iyy - m.ixy * m.ixy) &&
  decide (0 < m.ixx * (m.iyy * m.izz - m.iyz * m.iyz)
            - m.ixy * (m.ixy * m.izz - m.iyz * m.ixz)
            + m.ixz * (m.ixy * m.iyz - m.iyy * m.ixz))

/-- The default mass matrix of `Link::Load` (`mass = 1`, unit diagonal). -/
def MassMatrix.default1 : MassMatrix :=
  ⟨1, 1, 1, 1, 0, 0, 0⟩

/-- Modelled from the spec: a child entity of a link (Visual, Collision,
Sensor, Light, ParticleEmitter; their `.cc` files are not part of the
given sources).  Per §4.E each entity keeps a back-reference to the
element it was loaded from and its `ToElement` reconstructs that subtree;
the entity is modelled by that element. -/
structure ChildEntity where
  elem : Element

/-- The name accessor of a child entity (its `name` attribute). -/
def ChildEntity.name (c : ChildEntity) : String :=
  c.elem.getAttr "name"

/-- Modelled from the spec: `loadUniqueRepeated` of `Utils.cc` (not part
of the given sources) loads every child with the given tag in document
order and reports an error when two share a name (names are unique within
a scope, §Glossary). -/
def loadUniqueRepeated (parent : Element) (tag : String) :
    List ChildEntity × List ErrorCode :=
  let elems := parent.children.filter (fun c => c.name == tag)
  (elems.map (fun e => ⟨e⟩),
   if (elems.map (fun e => e.getAttr "name")).Nodup then [] else [.DUPLICATE_NAME])

/-- The state of a `Link` domain object (the `Link::Implementation`
fields that `Link.cc` loads and serializes). -/
structure LinkState where
  name : String
  pose : Pose3
  poseRelativeTo : String
  visuals : List ChildEntity
  collisions : List ChildEntity
  lights : List ChildEntity
  sensors : List ChildEntity
  emitters : List ChildEntity
  massMatrix : MassMatrix
  inertialPose : Pose3
  enableWind : Bool

/-- The default-constructed link state. -/
def LinkState.default : LinkState :=
  ⟨"", Pose3.zero, "", [], [], [], [], [], MassMatrix.default1, Pose3.zero, false⟩

/-- The `<inertial>` extraction of `Link::Load`: pose, mass and inertia
components with their schema defaults. -/
def loadInertial (e : Element) : MassMatrix × Pose3 :=
  match e.firstChildNamed "inertial" with
  | none => (MassMatrix.default1, Pose3.zero)
  | some iel =>
    let ipose := match iel.firstChildNamed "pose" with
      | none => Pose3.zero
      | some p => (loadPose p).1
    let mass := iel.getQ "mass" 1
    match iel.firstChildNamed "inertia" with
    | none => (⟨mass, 1, 1, 1, 0, 0, 0⟩, ipose)
    | some inel =>
      (⟨mass, inel.getQ "ixx" 1, inel.getQ "iyy" 1, inel.getQ "izz" 1,
        inel.getQ "ixy" 0, inel.getQ "ixz" 0, inel.getQ "iyz" 0⟩, ipose)

/-- `Link::Load` from `Link.cc`: reject a non-`<link>` element; read name
(`ATTRIBUTE_MISSING` when unset, `RESERVED_NAME` when reserved), raw
pose, the five child collections, the inertial data
(`LINK_INERTIA_INVALID` appended when the mass matrix is invalid, without
aborting) and the `enable_wind` flag, accumulating all errors. -/
def Link.Load (e : Element) : LinkState × List ErrorCode :=
  if e.name != "link" then (LinkState.default, [.ELEMENT_INCORRECT_TYPE])
  else
    let np := loadName e
    let nameErrs : List ErrorCode :=
      (if !np.2 then [.ATTRIBUTE_MISSING] else []) ++
      (if isReservedName np.1 then [.RESERVED_NAME] else [])
    let pr := loadPose e
    let vis := loadUniqueRepeated e "visual"
    let col := loadUniqueRepeated e "collision"
    let lig := loadUniqueRepeated e "light"
    let sen := loadUniqueRepeated e "sensor"
    let emi := loadUniqueRepeated e "particle_emitter"
    let inr := loadInertial e
    let inertiaErrs : List ErrorCode :=
      if !inr.1.isValid then [.LINK_INERTIA_INVALID] else []
    let wind := e.getBoolD "enable_wind" false
    (⟨np.1, pr.1, pr.2, vis.1, col.1, lig.1, sen.1, emi.1, inr.1, inr.2, wind⟩,
     nameErrs ++ vis.2 ++ col.2 ++ lig.2 ++ sen.2 ++ emi.2 ++ inertiaErrs)

/-- `Link::ToElement` from `Link.cc`: a fresh `<link>` element with the
name attribute, the pose (its `relative_to` set only when non-empty), the
inertial block, the `enable_wind` flag, then the collisions, lights,
particle emitters, sensors and visuals serialized by their own
`ToElement` in that order. -/
def Link.ToElement (st : LinkState) : Element :=
  let poseElem : Element :=
    .mk "pose"
      (if st.poseRelativeTo != "" then [("relative_to", .str st.poseRelativeTo)] else [])
      (some (.pose st.pose)) []
  let inertiaElem : Element :=
    .mk "inertia" [] none
      [.mk "ixx" [] (some (.num st.massMatrix.ixx)) [],
       .mk "ixy" [] (some (.num st.massMatrix.ixy)) [],
       .mk "ixz" [] (some (.num st.massMatrix.ixz)) [],
       .mk "iyy" [] (some (.num st.massMatrix.iyy)) [],
       .mk "iyz" [] (some (.num st.massMatrix.iyz)) [],
       .mk "izz" [] (some (.num st.massMatrix.izz)) []]
  let inertialElem : Element :=
    .mk "inertial" [] none
      [.mk "pose" [] (some (.pose st.inertialPose)) [],
       .mk "mass" [] (some (.num st.massMatrix.mass)) [],
       inertiaElem]
  let windElem : Element :=
    .mk "enable_wind" [] (some (.boolV st.enableWind)) []
  .mk "link" [("name", .str st.name)] none
    ([poseElem, inertialElem, windElem] ++
     st.collisions.map (fun c => c.elem) ++
     st.lights.map (fun c => c.elem) ++
     st.emitters.map (fun c => c.elem) ++
     st.sensors.map (fun c => c.elem) ++
     st.visuals.map (fun c => c.elem))

/-- `Link::VisualNameExists` and its four siblings from `Link.cc`. -/
def Link.VisualNameExists (st : LinkState) (n : String) : Bool :=
  st.visuals.any (fun v => v.name == n)

/-- `Link::CollisionNameExists` from `Link.cc`. -/
def Link.CollisionNameExists (st : LinkState) (n : String) : Bool :=
  st.collisions.any (fun c => c.name == n)

/-- `Link::LightNameExists` from `Link.cc` (via `LightByName`). -/
def Link.LightNameExists (st : LinkState) (n : String) : Bool :=
  st.lights.any (fun c => c.name == n)

/-- `Link::SensorNameExists` from `Link.cc`. -/
def Link.SensorNameExists (st : LinkState) (n : String) : Bool :=
  st.sensors.any (fun c => c.name == n)

/-- `Link::ParticleEmitterNameExists` from `Link.cc`. -/
def Link.ParticleEmitterNameExists (st : LinkState) (n : String) : Bool :=
  st.emitters.any (fun c => c.name == n)

/-- `Link::AddCollision` from `Link.cc`: refuse a duplicate name, else
append. -/
def Link.AddCollision (st : LinkState) (c : ChildEntity) : LinkState × Bool :=
  if Link.CollisionNameExists st c.name then (st, false)
  else ({ st with collisions := st.collisions ++ [c] }, true)

/-- `Link::AddVisual` from `Link.cc`. -/
def Link.AddVisual (st : LinkState) (v : ChildEntity) : LinkState × Bool :=
  if Link.VisualNameExists st v.name then (st, false)
  else ({ st with visuals := st.visuals ++ [v] }, true)

/-- `Link::AddLight` from `Link.cc`. -/
def Link.AddLight (st : LinkState) (l : ChildEntity) : LinkState × Bool :=
  if Link.LightNameExists st l.name then (st, false)
  else ({ st with lights := st.lights ++ [l] }, true)

/-- `Link::AddSensor` from `Link.cc`. -/
def Link.AddSensor (st : LinkState) (s : ChildEntity) : LinkState × Bool :=
  if Link.SensorNameExists st s.name then (st, false)
  else ({ st with sensors := st.sensors ++ [s] }, true)

/-- `Link::AddParticleEmitter` from `Link.cc`. -/
def Link.AddParticleEmitter (st : LinkState) (p : ChildEntity) : LinkState × Bool :=
  if Link.ParticleEmitterNameExists st p.name then (st, false)
  else ({ st with emitters := st.emitters ++ [p] }, true)

/-! ## The Material domain entity (`Material.cc`) -/

/-- The shader types of `Material`. -/
inductive ShaderType where
  | PIXEL
  | VERTEX
  | NORMAL_MAP_OBJECTSPACE
  | NORMAL_MAP_TANGENTSPACE
deriving DecidableEq, Repr

/-- The normal-map space of a PBR workflow. -/
inductive NormalMapSpace where
  | TANGENT
  | OBJECT
deriving DecidableEq, Repr

/-- Modelled from the spec: the metal PBR workflow data that
`Material::ToElement` serializes (file `Pbr.cc` is not part of the given
sources); the fields are exactly the workflow accessors used there. -/
structure MetalWorkflow where
  albedoMap : String
  roughnessMap : String
  roughness : ℚ
  metalnessMap : String
  metalness : ℚ
  ambientOcclusionMap : String
  normalMapType : NormalMapSpace
  normalMap : String
  emissiveMap : String
  lightMapTexCoordSet : ℚ
  lightMap : String
deriving DecidableEq, Repr

/-- Modelled from the spec: the specular PBR workflow data that
`Material::ToElement` serializes. -/
structure SpecularWorkflow where
  albedoMap : String
  specularMap : String
  environmentMap : String
  ambientOcclusionMap : String
  emissiveMap : String
  glossinessMap : String
  glossiness : ℚ
  normalMapType : NormalMapSpace
  normalMap : String
  lightMapTexCoordSet : ℚ
  lightMap : String
deriving DecidableEq, Repr

/-- Modelled from the spec: the PBR sub-object, holding at most one
workflow per kind. -/
structure PbrState where
  metal : Option MetalWorkflow
  specular : Option SpecularWorkflow
deriving DecidableEq, Repr

/-- The serialization of a metal workflow written by the PBR section of
`Material::ToElement` (`Material.cc`). -/
def metalWorkflowToElement (w : MetalWorkflow) : Element :=
  .mk "metal" [] none
    [.mk "albedo_map" [] (some (.str w.albedoMap)) [],
     .mk "roughness_map" [] (some (.str w.roughnessMap)) [],
     .mk "roughness" [] (some (.num w.roughness)) [],
     .mk "metalness_map" [] (some (.str w.metalnessMap)) [],
     .mk "metalness" [] (some (.num w.metalness)) [],
     .mk "ambient_occlusion_map" [] (some (.str w.ambientOcclusionMap)) [],
     .mk "normal_map"
       [("type", .str (if w.normalMapType == .TANGENT then "tangent" else "object"))]
       (some (.str w.normalMap)) [],
     .mk "emissive_map" [] (some (.str w.emissiveMap)) [],
     .mk "light_map" [("uv_set", .num w.lightMapTexCoordSet)]
       (some (.str w.lightMap)) []]

/-- The serialization of a specular workflow written by the PBR section of
`Material::ToElement` (`Material.cc`). -/
def specularWorkflowToElement (w : SpecularWorkflow) : Element :=
  .mk "specular" [] none
    [.mk "albedo_map" [] (some (.str w.albedoMap)) [],
     .mk "specular_map" [] (some (.str w.specularMap)) [],
     .mk "environment_map" [] (some (.str w.environmentMap)) [],
     .mk "ambient_occlusion_map" [] (some (.str w.ambientOcclusionMap)) [],
     .mk "emissive_map" [] (some (.str w.emissiveMap)) [],
     .mk "glossiness_map" [] (some (.str w.glossinessMap)) [],
     .mk "glossiness" [] (some (.num w.glossiness)) [],
     .mk "normal_map"
       [("type", .str (if w.normalMapType == .TANGENT then "tangent" else "object"))]
       (some (.str w.normalMap)) [],
     .mk "light_map" [("uv_set", .num w.lightMapTexCoordSet)]
       (some (.str w.lightMap)) []]

/-- Modelled from the spec: `Pbr::Load` for a metal workflow element (file
`Pbr.cc` is not part of the given sources) reads back the schema layout
that `Material::ToElement` writes, with the schema defaults. -/
def metalWorkflowLoad (e : Element) : MetalWorkflow :=
  let nm := e.firstChildNamed "normal_map"
  let lm := e.firstChildNamed "light_map"
  { albedoMap := e.getStr "albedo_map" ""
    roughnessMap := e.getStr "roughness_map" ""
    roughness := e.getQ "roughness" (1/2)
    metalnessMap := e.getStr "metalness_map" ""
    metalness := e.getQ "metalness" (1/2)
    ambientOcclusionMap := e.getStr "ambient_occlusion_map" ""
    normalMapType :=
      match nm with
      | some n => if n.getAttr "type" == "tangent" then .TANGENT else .OBJECT
      | none => .TANGENT
    normalMap := match nm with | some n => n.valueStr | none => ""
    emissiveMap := e.getStr "emissive_map" ""
    lightMapTexCoordSet :=
      match lm with
      | some l => match l.attrLookup "uv_set" with
        | some (.num q) => q
        | _ => 0
      | none => 0
    lightMap := match lm with | some l => l.valueStr | none => "" }

/-- Modelled from the spec: `Pbr::Load` for a specular workflow element. -/
def specularWorkflowLoad (e : Element) : SpecularWorkflow :=
  let nm := e.firstChildNamed "normal_map"
  let lm := e.firstChildNamed "light_map"
  { albedoMap := e.getStr "albedo_map" ""
    specularMap := e.getStr "specular_map" ""
    environmentMap := e.getStr "environment_map" ""
    ambientOcclusionMap := e.getStr "ambient_occlusion_map" ""
    emissiveMap := e.getStr "emissive_map" ""
    glossinessMap := e.getStr "glossiness_map" ""
    glossiness := e.getQ "glossiness" 0
    normalMapType :=
      match nm with
      | some n => if n.getAttr "type" == "tangent" then .TANGENT else .OBJECT
      | none => .TANGENT
    normalMap := match nm with | some n => n.valueStr | none => ""
    lightMapTexCoordSet :=
      match lm with
      | some l => match l.attrLookup "uv_set" with
        | some (.num q) => q
        | _ => 0
      | none => 0
    lightMap := match lm with | some l => l.valueStr | none => "" }

/-- Modelled from the spec: `Pbr::Load` on a `<pbr>` element: each
workflow kind is present exactly when its child element is. -/
def pbrLoad (e : Element) : PbrState :=
  { metal := (e.firstChildNamed "metal").map metalWorkflowLoad
    specular := (e.firstChildNamed "specular").map specularWorkflowLoad }

/-- The state of a `Material` domain object (`Material::Implementation`). -/
structure MaterialState where
  scriptUri : String
  scriptName : String
  shader : ShaderType
  normalMap : String
  lighting : Bool
  doubleSided : Bool
  ambient : Color
  diffuse : Color
  specular : Color
  emissive : Color
  renderOrder : ℚ
  pbr : Option PbrState
deriving DecidableEq, Repr

/-- The default-constructed material state (`Material::Implementation`
member initializers). -/
def MaterialState.default : MaterialState :=
  ⟨"", "", .PIXEL, "", true, false, ⟨0,0,0,1⟩, ⟨0,0,0,1⟩, ⟨0,0,0,1⟩, ⟨0,0,0,1⟩, 0, none⟩

/-- Modelled from the spec: the typed `Get<Color>` accessor (§4.A). -/
def Element.getColorD (e : Element) (k : String) (d : Color) : Color :=
  match e.attrLookup k with
  | some (.color c) => c
  | some _ => d
  | none =>
    match e.firstChildNamed k with
    | some c =>
      match c.value with
      | some (.color cv) => cv
      | _ => d
    | none => d

/-- `Material::Load` from `Material.cc`: reject a non-`<material>`
element; read the script (both `uri` and `name` must be explicitly set
and non-empty, with `__default__` read as empty), the shader type and its
normal map, the colors, render order, lighting and double-sided flags and
the optional PBR block, accumulating all errors. -/
def Material.Load (e : Element) : MaterialState × List ErrorCode :=
  if e.name != "material" then (MaterialState.default, [.ELEMENT_INCORRECT_TYPE])
  else
    let scriptData :
        (String × String) × List ErrorCode :=
      match e.firstChildNamed "script" with
      | none => (("", ""), [])
      | some s =>
        let uriPair := s.getStrPair "uri" ""
        let uri := if uriPair.1 == "__default__" then "" else uriPair.1
        let uriErrs : List ErrorCode :=
          if !uriPair.2 || uri == "" then [.ELEMENT_INVALID] else []
        let namePair := s.getStrPair "name" ""
        let nm := if namePair.1 == "__default__" then "" else namePair.1
        let nameErrs : List ErrorCode :=
          if !namePair.2 || nm == "" then [.ELEMENT_MISSING] else []
        ((uri, nm), uriErrs ++ nameErrs)
    let shaderData :
        (ShaderType × String) × List ErrorCode :=
      match e.firstChildNamed "shader" with
      | none => ((.PIXEL, ""), [])
      | some s =>
        let ty := s.getStr "type" "pixel"
        let shader? : Option ShaderType :=
          if ty == "pixel" then some .PIXEL
          else if ty == "vertex" then some .VERTEX
          else if ty == "normal_map_objectspace" then some .NORMAL_MAP_OBJECTSPACE
          else if ty == "normal_map_object_space" then some .NORMAL_MAP_OBJECTSPACE
          else if ty == "normal_map_tangentspace" then some .NORMAL_MAP_TANGENTSPACE
          else if ty == "normal_map_tangent_space" then some .NORMAL_MAP_TANGENTSPACE
          else none
        let shader := shader?.getD .PIXEL
        let shaderErrs : List ErrorCode :=
          if shader?.isNone then [.ELEMENT_INVALID] else []
        let nm0 := s.getStr "normal_map" ""
        let nm := if nm0 == "__default__" then "" else nm0
        let nmErrs : List ErrorCode :=
          if (shader == .NORMAL_MAP_OBJECTSPACE || shader == .NORMAL_MAP_TANGENTSPACE)
              && nm == "" then [.ELEMENT_MISSING] else []
        ((shader, nm), shaderErrs ++ nmErrs)
    let st : MaterialState :=
      { scriptUri := scriptData.1.1
        scriptName := scriptData.1.2
        shader := shaderData.1.1
        normalMap := shaderData.1.2
        lighting := e.getBoolD "lighting" true
        doubleSided := e.getBoolD "double_sided" false
        ambient := e.getColorD "ambient" ⟨0,0,0,1⟩
        diffuse := e.getColorD "diffuse" ⟨0,0,0,1⟩
        specular := e.getColorD "specular" ⟨0,0,0,1⟩
        emissive := e.getColorD "emissive" ⟨0,0,0,1⟩
        renderOrder := e.getQ "render_order" 0
        pbr := (e.firstChildNamed "pbr").map pbrLoad }
    (st, scriptData.2 ++ shaderData.2)

/-- `Material::ToElement` from `Material.cc`: a fresh `<material>`
element with the colors, render order, lighting and double-sided flags,
the script block only when both name and uri are non-empty, the shader
type (and the normal map only when non-empty) and the PBR block when
present. -/
def Material.ToElement (st : MaterialState) : Element :=
  let shaderTypeStr : String :=
    match st.shader with
    | .PIXEL => "pixel"
    | .VERTEX => "vertex"
    | .NORMAL_MAP_OBJECTSPACE => "normal_map_object_space"
    | .NORMAL_MAP_TANGENTSPACE => "normal_map_tangent_space"
  let shaderElem : Element :=
    .mk "shader" [("type", .str shaderTypeStr)] none
      (if st.normalMap != ""
       then [.mk "normal_map" [] (some (.str st.normalMap)) []] else [])
  let scriptElems : List Element :=
    if st.scriptName != "" && st.scriptUri != "" then
      [.mk "script" [] none
        [.mk "uri" [] (some (.str st.scriptUri)) [],
         .mk "name" [] (some (.str st.scriptName)) []]]
    else []
  let pbrElems : List Element :=
    match st.pbr with
    | none => []
    | some p =>
      [.mk "pbr" [] none
        ((match p.metal with
          | some w => [metalWorkflowToElement w]
          | none => []) ++
         (match p.specular with
          | some w => [specularWorkflowToElement w]
          | none => []))]
  .mk "material" [] none
    ([.mk "ambient" [] (some (.color st.ambient)) [],
      .mk "diffuse" [] (some (.color st.diffuse)) [],
      .mk "specular" [] (some (.color st.specular)) [],
      .mk "emissive" [] (some (.color st.emissive)) [],
      .mk "render_order" [] (some (.num st.renderOrder)) [],
      .mk "lighting" [] (some (.boolV st.lighting)) [],
      .mk "double_sided" [] (some (.boolV st.doubleSided)) []]
     ++ scriptElems ++ [shaderElem] ++ pbrElems)

/-! ## Helper lemmas about the element operations -/

theorem Element.name_mk (n : String) (a : List (String × Value)) (v : Option Value)
    (c : List Element) : (Element.mk n a v c).name = n := rfl

theorem Element.attrs_mk (n : String) (a : List (String × Value)) (v : Option Value)
    (c : List Element) : (Element.mk n a v c).attrs = a := rfl

theorem Element.children_mk (n : String) (a : List (String × Value)) (v : Option Value)
    (c : List Element) : (Element.mk n a v c).children = c := rfl

theorem Element.find?_filter_ne (l : List (String × Value)) (k : String) :
    (l.filter (fun p => p.1 != k)).find? (fun p => p.1 == k) = none := by
  induction l with
  | nil => rfl
  | cons a t ih =>
    by_cases h : a.1 = k
    · have h1 : (a.1 != k) = false := by simp [h]
      simp [List.filter_cons, h1, ih]
    · have h1 : (a.1 != k) = true := by simp [h]
      have h2 : (a.1 == k) = false := by simp [h]
      simp [List.filter_cons, h1, List.find?_cons, h2, ih]

theorem Element.find?_filter_ne_other (l : List (String × Value)) (k k' : String)
    (h : k' ≠ k) :
    (l.filter (fun p => p.1 != k)).find? (fun p => p.1 == k')
      = l.find? (fun p => p.1 == k') := by
  induction l with
  | nil => rfl
  | cons a t ih =>
    by_cases ha : a.1 = k
    · have h1 : (a.1 != k) = false := by simp [ha]
      have h2 : (a.1 == k') = false := by
        simp only [beq_eq_false_iff_ne, ne_eq, ha]
        exact fun hh => h hh.symm
      simp [List.filter_cons, h1, List.find?_cons, h2, ih]
    · have h1 : (a.1 != k) = true := by simp [ha]
      by_cases ha' : a.1 = k'
      · have h2 : (a.1 == k') = true := by simp [ha']
        simp [List.filter_cons, h1, List.find?_cons, h2]
      · have h2 : (a.1 == k') = false := by simp [ha']
        simp [List.filter_cons, h1, List.find?_cons, h2, ih]

theorem Element.setAttr_name (e : Element) (k : String) (v : Value) :
    (e.setAttr k v).name = e.name := rfl

theorem Element.setAttr_children (e : Element) (k : String) (v : Value) :
    (e.setAttr k v).children = e.children := rfl

theorem Element.attrLookup_setAttr_same (e : Element) (k : String) (v : Value) :
    (e.setAttr k v).attrLookup k = some v := by
  unfold Element.setAttr Element.attrLookup
  rw [Element.attrs_mk, List.find?_append, Element.find?_filter_ne]
  simp [List.find?_cons]

theorem Element.getAttr_setAttr_same (e : Element) (k : String) (v : Value) :
    (e.setAttr k v).getAttr k = v.asString := by
  simp [Element.getAttr, Element.attrLookup_setAttr_same]

theorem Element.attrLookup_setAttr_other (e : Element) (k k' : String) (v : Value)
    (h : k' ≠ k) :
    (e.setAttr k v).attrLookup k' = e.attrLookup k' := by
  unfold Element.setAttr Element.attrLookup
  rw [Element.attrs_mk, List.find?_append, Element.find?_filter_ne_other _ _ _ h]
  have h2 : List.find? (fun p => p.1 == k') [(k, v)] = none := by
    have : (k == k') = false := by
      simp only [beq_eq_false_iff_ne, ne_eq]
      exact fun hh => h hh.symm
    simp [List.find?_cons, this]
  rw [h2, Option.or_none]

theorem Element.getAttr_setAttr_other (e : Element) (k k' : String) (v : Value)
    (h : k' ≠ k) :
    (e.setAttr k v).getAttr k' = e.getAttr k' := by
  simp [Element.getAttr, Element.attrLookup_setAttr_other _ _ _ _ h]

theorem setAttributeToProxyFrame_name (proxyName attr : String) (u : Bool)
    (e : Element) : (setAttributeToProxyFrame proxyName attr u e).name = e.name := by
  unfold setAttributeToProxyFrame
  split
  · exact Element.setAttr_name _ _ _
  · rfl

theorem setAttributeToProxyFrame_children (proxyName attr : String) (u : Bool)
    (e : Element) :
    (setAttributeToProxyFrame proxyName attr u e).children = e.children := by
  unfold setAttributeToProxyFrame
  split
  · exact Element.setAttr_children _ _ _
  · rfl

theorem getAttr_setAttributeToProxyFrame_same (proxyName attr : String) (u : Bool)
    (e : Element) :
    (setAttributeToProxyFrame proxyName attr u e).getAttr attr
      = (if e.getAttr attr = "__model__" ∨ (u = true ∧ e.getAttr attr = "")
         then proxyName else e.getAttr attr) := by
  unfold setAttributeToProxyFrame
  by_cases h : e.getAttr attr = "__model__" ∨ (u = true ∧ e.getAttr attr = "")
  · have hb : (e.getAttr attr == "__model__" || (u && e.getAttr attr == "")) = true := by
      rcases h with h | ⟨hu, he⟩
      · simp [h]
      · simp [hu, he]
    simp [hb, h, Element.getAttr_setAttr_same, Value.asString]
  · have hb : (e.getAttr attr == "__model__" || (u && e.getAttr attr == "")) = false := by
      rw [not_or] at h
      rcases h with ⟨h1, h2⟩
      rcases u with _ | _
      · simp [h1]
      · have h3 : ¬ e.getAttr attr = "" := fun hh => h2 ⟨rfl, hh⟩
        simp [h1, h3]
    simp [hb, h]

theorem Element.modifyFirstChildNamed_name (e : Element) (k : String)
    (f : Element → Element) : (e.modifyFirstChildNamed k f).name = e.name := rfl

theorem Element.modifyFirstChildNamed_attrs (e : Element) (k : String)
    (f : Element → Element) : (e.modifyFirstChildNamed k f).attrs = e.attrs := rfl

theorem Element.getAttr_modifyFirstChildNamed (e : Element) (k a : String)
    (f : Element → Element) :
    (e.modifyFirstChildNamed k f).getAttr a = e.getAttr a := by
  simp [Element.getAttr, Element.attrLookup, Element.modifyFirstChildNamed,
    Element.attrs_mk]

theorem Element.firstChildNamed_modifyFirstChildNamed (e : Element) (k : String)
    (f : Element → Element) (hf : ∀ c, (f c).name = c.name) :
    (e.modifyFirstChildNamed k f).firstChildNamed k
      = (e.firstChildNamed k).map f := by
  simp only [Element.modifyFirstChildNamed, Element.firstChildNamed,
    Element.children_mk]
  induction e.children with
  | nil => rfl
  | cons c cs ih =>
    by_cases h : c.name = k
    · have hb : (c.name == k) = true := by simp [h]
      have hb' : ((f c).name == k) = true := by simp [hf, h]
      simp [Element.modifyFirstChildNamed.go, List.find?_cons, hb, hb']
    · have hb : (c.name == k) = false := by simp [h]
      simp [Element.modifyFirstChildNamed.go, List.find?_cons, hb, ih]

/-! ## C1, C2, C3: the merge-include protocol -/

/-- C1: a successful merge-include of model `M` inserts into the parent a
synthetic frame named `_merged__<M's name>__model__`, attached to `M`'s
canonical link, whose pose value is `M`'s raw pose when `M` has no
placement frame and otherwise `M`'s placement-frame-resolved pose, and
whose pose `relative_to` is `M`'s `pose_relative_to`, defaulting to
`__model__` when that is empty. -/
theorem C1_merged_proxy_frame (root parent : Element) (m : ModelDom)
    (lerrs : List ErrorCode) (firstElem : Element)
    (hroot : root.children.head? = some firstElem)
    (hfm : firstElem.name = "model") (hpm : parent.name = "model") :
    ∃ fr rest,
      (insertIncludedElement (some root) true (some m) lerrs parent).1.children
        = parent.children ++ fr :: rest ∧
      fr.name = "frame" ∧
      fr.getAttr "name" = "_merged__" ++ m.name ++ "__model__" ∧
      fr.getAttr "attached_to" = m.canonicalLinkName ∧
      ∃ p, fr.firstChildNamed "pose" = some p ∧
        p.value = some (.pose
          (if m.placementFrameName = "" then m.rawPose else m.resolvedPose)) ∧
        p.getAttr "relative_to"
          = (if m.poseRelativeTo = "" then "__model__" else m.poseRelativeTo) := by
  refine ⟨mergedModelProxyFrame m,
    firstElem.children.filterMap
      (fun c => if shouldHoist c
        then some (rewriteMergedChild (computeMergedModelProxyFrameName m.name) c)
        else none),
    ?_, rfl, ?_, ?_, ?_⟩
  · simp [insertIncludedElement, hroot, hfm, hpm, Element.children_mk]
  · simp [mergedModelProxyFrame, Element.getAttr, Element.attrLookup,
      Element.attrs_mk, List.find?_cons, computeMergedModelProxyFrameName,
      Value.asString]
  · simp [mergedModelProxyFrame, Element.getAttr, Element.attrLookup,
      Element.attrs_mk, List.find?_cons, Value.asString]
  · refine ⟨.mk "pose"
      [("relative_to", .str (if m.poseRelativeTo == "" then "__model__"
          else m.poseRelativeTo))]
      (some (.pose (if m.placementFrameName != "" then m.resolvedPose
          else m.rawPose))) [],
      rfl, ?_, ?_⟩
    · by_cases h : m.placementFrameName = "" <;> simp [h, Element.value]
    · by_cases h : m.poseRelativeTo = "" <;>
        simp [h, Element.getAttr, Element.attrLookup, Element.attrs_mk,
          List.find?_cons, Value.asString]

/-- C1 witness at a concrete model and parent. -/
theorem C1_merged_proxy_frame_witness :
    ∃ fr rest,
      (insertIncludedElement
        (some (.mk "sdf" [] none [.mk "model" [("name", .str "M")] none []]))
        true
        (some ⟨"M", ⟨1,2,3,0,0,0⟩, "", "", "base", Pose3.zero⟩) []
        (.mk "model" [("name", .str "P")] none [])).1.children
        = (Element.mk "model" [("name", .str "P")] none []).children ++ fr :: rest ∧
      fr.name = "frame" ∧
      fr.getAttr "name" = "_merged__" ++ "M" ++ "__model__" ∧
      fr.getAttr "attached_to" = "base" ∧
      ∃ p, fr.firstChildNamed "pose" = some p ∧
        p.value = some (.pose
          (if ("" : String) = "" then ⟨1,2,3,0,0,0⟩ else Pose3.zero)) ∧
        p.getAttr "relative_to" = (if ("" : String) = "" then "__model__" else "") :=
  C1_merged_proxy_frame _ _ ⟨"M", ⟨1,2,3,0,0,0⟩, "", "", "base", Pose3.zero⟩ [] _
    rfl rfl rfl

/-- C2: a merge-include whose included top-level entity is not a model, or
whose parent is not a model, records `MERGE_INCLUDE_UNSUPPORTED` and
inserts nothing into the parent. -/
theorem C2_merge_unsupported (root parent : Element) (lm : Option ModelDom)
    (lerrs : List ErrorCode) (firstElem : Element)
    (hroot : root.children.head? = some firstElem)
    (h : firstElem.name ≠ "model" ∨ parent.name ≠ "model") :
    (insertIncludedElement (some root) true lm lerrs parent).1 = parent ∧
    ErrorCode.MERGE_INCLUDE_UNSUPPORTED
      ∈ (insertIncludedElement (some root) true lm lerrs parent).2 := by
  rcases h with h | h
  · constructor <;> simp [insertIncludedElement, hroot, h]
  · by_cases hf : firstElem.name = "model" <;>
      constructor <;> simp [insertIncludedElement, hroot, hf, h]

/-- C2 witness at a concrete non-model include into a model parent. -/
theorem C2_merge_unsupported_witness :
    (insertIncludedElement
      (some (.mk "sdf" [] none [.mk "light" [("name", .str "L")] none []]))
      true none [] (.mk "model" [] none [])).1 = .mk "model" [] none [] ∧
    ErrorCode.MERGE_INCLUDE_UNSUPPORTED
      ∈ (insertIncludedElement
          (some (.mk "sdf" [] none [.mk "light" [("name", .str "L")] none []]))
          true none [] (.mk "model" [] none [])).2 :=
  C2_merge_unsupported _ _ none [] _ rfl (Or.inl (by simp [Element.name_mk]))

/-- C3: for a frame hoisted by merge-include, `attached_to` is rewritten
to the proxy frame name exactly when it was `__model__` or empty, and an
existing pose's `relative_to` is rewritten exactly when it was
`__model__` (in particular an empty pose `relative_to` is kept). -/
theorem C3_hoisted_frame_rewrite (proxyName : String) (c : Element)
    (hc : c.name = "frame") :
    (rewriteMergedChild proxyName c).getAttr "attached_to"
      = (if c.getAttr "attached_to" = "__model__" ∨ c.getAttr "attached_to" = ""
         then proxyName else c.getAttr "attached_to") ∧
    (∀ p, c.firstChildNamed "pose" = some p →
      (rewriteMergedChild proxyName c).firstChildNamed "pose"
        = some (setAttributeToProxyFrame proxyName "relative_to" false p) ∧
      (setAttributeToProxyFrame proxyName "relative_to" false p).getAttr "relative_to"
        = (if p.getAttr "relative_to" = "__model__"
           then proxyName else p.getAttr "relative_to")) ∧
    (c.firstChildNamed "pose" = none →
      (rewriteMergedChild proxyName c).firstChildNamed "pose" = none) := by
  have hrw : rewriteMergedChild proxyName c
      = (setAttributeToProxyFrame proxyName "attached_to" true c).modifyFirstChildNamed
          "pose" (setAttributeToProxyFrame proxyName "relative_to" false) := by
    simp [rewriteMergedChild, hc]
  have hchildren :
      (setAttributeToProxyFrame proxyName "attached_to" true c).firstChildNamed "pose"
        = c.firstChildNamed "pose" := by
    simp [Element.firstChildNamed, setAttributeToProxyFrame_children]
  refine ⟨?_, ?_, ?_⟩
  · rw [hrw, Element.getAttr_modifyFirstChildNamed]
    have h1 := getAttr_setAttributeToProxyFrame_same proxyName "attached_to" true c
    simpa using h1
  · intro p hp
    refine ⟨?_, ?_⟩
    · rw [hrw, Element.firstChildNamed_modifyFirstChildNamed _ _ _
        (fun x => setAttributeToProxyFrame_name _ _ _ x), hchildren, hp]
      rfl
    · have h1 := getAttr_setAttributeToProxyFrame_same proxyName "relative_to" false p
      simpa using h1
  · intro hp
    rw [hrw, Element.firstChildNamed_modifyFirstChildNamed _ _ _
      (fun x => setAttributeToProxyFrame_name _ _ _ x), hchildren, hp]
    rfl

/-- C3 witness: a frame with empty `attached_to` and a pose whose empty
`relative_to` is kept while `attached_to` is rewritten. -/
theorem C3_hoisted_frame_rewrite_witness :
    (rewriteMergedChild "_merged__M__model__"
      (.mk "frame" [("name", .str "f")] none
        [.mk "pose" [] (some (.pose Pose3.zero)) []])).getAttr "attached_to"
      = (if ("" : String) = "__model__" ∨ ("" : String) = ""
         then "_merged__M__model__" else "") := by
  have h := (C3_hoisted_frame_rewrite "_merged__M__model__"
    (.mk "frame" [("name", .str "f")] none
      [.mk "pose" [] (some (.pose Pose3.zero)) []]) rfl).1
  simpa [Element.getAttr, Element.attrLookup, Element.attrs_mk,
    List.find?_cons, Value.asString] using h

/-! ## C10: name-unique Add operations on a Link -/

/-- One Add operation on a link, tagged by child kind. -/
inductive AddOp where
  | collision (c : ChildEntity)
  | visual (c : ChildEntity)
  | light (c : ChildEntity)
  | sensor (c : ChildEntity)
  | emitter (c : ChildEntity)

/-- Apply one Add operation (discarding the returned flag). -/
def Link.applyAdd (st : LinkState) : AddOp → LinkState
  | .collision c => (Link.AddCollision st c).1
  | .visual c => (Link.AddVisual st c).1
  | .light c => (Link.AddLight st c).1
  | .sensor c => (Link.AddSensor st c).1
  | .emitter c => (Link.AddParticleEmitter st c).1

/-- Names are pairwise distinct within each child-kind collection. -/
def LinkState.distinctNames (st : LinkState) : Prop :=
  (st.visuals.map ChildEntity.name).Nodup ∧
  (st.collisions.map ChildEntity.name).Nodup ∧
  (st.lights.map ChildEntity.name).Nodup ∧
  (st.sensors.map ChildEntity.name).Nodup ∧
  (st.emitters.map ChildEntity.name).Nodup

theorem nodup_append_name (l : List ChildEntity) (c : ChildEntity)
    (hl : (l.map ChildEntity.name).Nodup)
    (hnot : l.any (fun v => v.name == c.name) = false) :
    ((l ++ [c]).map ChildEntity.name).Nodup := by
  rw [List.map_append, List.nodup_append]
  refine ⟨hl, by simp, ?_⟩
  intro x hx hx'
  simp only [List.map_cons, List.map_nil, List.mem_singleton] at hx'
  subst hx'
  rcases List.mem_map.mp hx with ⟨v, hv, hveq⟩
  have := List.any_eq_false.mp hnot v hv
  simp only [beq_iff_eq] at this
  exact this (by rw [hveq])

/-- C10: each Add operation on a link returns `false` and leaves the
collection unchanged when a child of that kind with the same name exists,
and otherwise appends the child and returns `true`; consequently names
within each kind stay pairwise distinct under any sequence of Adds. -/
theorem C10_add_operations :
    (∀ st c, (Link.CollisionNameExists st c.name = true →
        Link.AddCollision st c = (st, false)) ∧
      (Link.CollisionNameExists st c.name = false →
        Link.AddCollision st c = ({st with collisions := st.collisions ++ [c]}, true))) ∧
    (∀ st c, (Link.VisualNameExists st c.name = true →
        Link.AddVisual st c = (st, false)) ∧
      (Link.VisualNameExists st c.name = false →
        Link.AddVisual st c = ({st with visuals := st.visuals ++ [c]}, true))) ∧
    (∀ st c, (Link.LightNameExists st c.name = true →
        Link.AddLight st c = (st, false)) ∧
      (Link.LightNameExists st c.name = false →
        Link.AddLight st c = ({st with lights := st.lights ++ [c]}, true))) ∧
    (∀ st c, (Link.SensorNameExists st c.name = true →
        Link.AddSensor st c = (st, false)) ∧
      (Link.SensorNameExists st c.name = false →
        Link.AddSensor st c = ({st with sensors := st.sensors ++ [c]}, true))) ∧
    (∀ st c, (Link.ParticleEmitterNameExists st c.name = true →
        Link.AddParticleEmitter st c = (st, false)) ∧
      (Link.ParticleEmitterNameExists st c.name = false →
        Link.AddParticleEmitter st c = ({st with emitters := st.emitters ++ [c]}, true))) ∧
    (∀ (ops : List AddOp) (st : LinkState), st.distinctNames →
      (ops.foldl Link.applyAdd st).distinctNames) := by
  have step : ∀ (st : LinkState) (op : AddOp), st.distinctNames →
      (Link.applyAdd st op).distinctNames := by
    intro st op hst
    obtain ⟨h1, h2, h3, h4, h5⟩ := hst
    cases op with
    | collision c =>
      by_cases h : Link.CollisionNameExists st c.name = true
      · simpa [Link.applyAdd, Link.AddCollision, h] using ⟨h1, h2, h3, h4, h5⟩
      · have h' : Link.CollisionNameExists st c.name = false := by
          simpa using h
        exact ⟨by simpa [Link.applyAdd, Link.AddCollision, h'] using h1,
          by simpa [Link.applyAdd, Link.AddCollision, h'] using
            nodup_append_name _ _ h2 h',
          by simpa [Link.applyAdd, Link.AddCollision, h'] using h3,
          by simpa [Link.applyAdd, Link.AddCollision, h'] using h4,
          by simpa [Link.applyAdd, Link.AddCollision, h'] using h5⟩
    | visual c =>
      by_cases h : Link.VisualNameExists st c.name = true
      · simpa [Link.applyAdd, Link.AddVisual, h] using ⟨h1, h2, h3, h4, h5⟩
      · have h' : Link.VisualNameExists st c.name = false := by simpa using h
        exact ⟨by simpa [Link.applyAdd, Link.AddVisual, h'] using
            nodup_append_name _ _ h1 h',
          by simpa [Link.applyAdd, Link.AddVisual, h'] using h2,
          by simpa [Link.applyAdd, Link.AddVisual, h'] using h3,
          by simpa [Link.applyAdd, Link.AddVisual, h'] using h4,
          by simpa [Link.applyAdd, Link.AddVisual, h'] using h5⟩
    | light c =>
      by_cases h : Link.LightNameExists st c.name = true
      · simpa [Link.applyAdd, Link.AddLight, h] using ⟨h1, h2, h3, h4, h5⟩
      · have h' : Link.LightNameExists st c.name = false := by simpa using h
        exact ⟨by simpa [Link.applyAdd, Link.AddLight, h'] using h1,
          by simpa [Link.applyAdd, Link.AddLight, h'] using h2,
          by simpa [Link.applyAdd, Link.AddLight, h'] using
            nodup_append_name _ _ h3 h',
          by simpa [Link.applyAdd, Link.AddLight, h'] using h4,
          by simpa [Link.applyAdd, Link.AddLight, h'] using h5⟩
    | sensor c =>
      by_cases h : Link.SensorNameExists st c.name = true
      · simpa [Link.applyAdd, Link.AddSensor, h] using ⟨h1, h2, h3, h4, h5⟩
      · have h' : Link.SensorNameExists st c.name = false := by simpa using h
        exact ⟨by simpa [Link.applyAdd, Link.AddSensor, h'] using h1,
          by simpa [Link.applyAdd, Link.AddSensor, h'] using h2,
          by simpa [Link.applyAdd, Link.AddSensor, h'] using h3,
          by simpa [Link.applyAdd, Link.AddSensor, h'] using
            nodup_append_name _ _ h4 h',
          by simpa [Link.applyAdd, Link.AddSensor, h'] using h5⟩
    | emitter c =>
      by_cases h : Link.ParticleEmitterNameExists st c.name = true
      · simpa [Link.applyAdd, Link.AddParticleEmitter, h] using ⟨h1, h2, h3, h4, h5⟩
      · have h' : Link.ParticleEmitterNameExists st c.name = false := by
          simpa using h
        exact ⟨by simpa [Link.applyAdd, Link.AddParticleEmitter, h'] using h1,
          by simpa [Link.applyAdd, Link.AddParticleEmitter, h'] using h2,
          by simpa [Link.applyAdd, Link.AddParticleEmitter, h'] using h3,
          by simpa [Link.applyAdd, Link.AddParticleEmitter, h'] using h4,
          by simpa [Link.applyAdd, Link.AddParticleEmitter, h'] using
            nodup_append_name _ _ h5 h'⟩
  refine ⟨?_, ?_, ?_, ?_, ?_, ?_⟩
  · intro st c
    constructor <;> intro h <;> simp [Link.AddCollision, h]
  · intro st c
    constructor <;> intro h <;> simp [Link.AddVisual, h]
  · intro st c
    constructor <;> intro h <;> simp [Link.AddLight, h]
  · intro st c
    constructor <;> intro h <;> simp [Link.AddSensor, h]
  · intro st c
    constructor <;> intro h <;> simp [Link.AddParticleEmitter, h]
  · intro ops
    induction ops with
    | nil => intro st h; exact h
    | cons op rest ih =>
      intro st h
      exact ih _ (step st op h)

/-- C10 witness: adding a fresh-named visual succeeds and a duplicate is
refused, starting from the default link state. -/
theorem C10_add_operations_witness :
    Link.AddVisual LinkState.default ⟨.mk "visual" [("name", .str "v")] none []⟩
      = ({ LinkState.default with
            visuals := LinkState.default.visuals
              ++ [⟨.mk "visual" [("name", .str "v")] none []⟩] }, true) ∧
    (([] : List AddOp).foldl Link.applyAdd LinkState.default).distinctNames := by
  constructor
  · exact (C10_add_operations.2.1 LinkState.default
      ⟨.mk "visual" [("name", .str "v")] none []⟩).2 rfl
  · exact C10_add_operations.2.2.2.2.2 [] LinkState.default
      ⟨by simp [LinkState.default], by simp [LinkState.default],
       by simp [LinkState.default], by simp [LinkState.default],
       by simp [LinkState.default]⟩

/-! ## C9: an invalid link inertia is reported but does not abort -/

/-- C9: for a `<link>` whose inertial data yields an invalid mass matrix,
`Link::Load` appends `LINK_INERTIA_INVALID` but still loads the name,
pose, child collections and `enable_wind` flag and returns the
accumulated error list. -/
theorem C9_link_inertia_invalid (e : Element)
    (hname : e.name = "link")
    (hinv : (loadInertial e).1.isValid = false) :
    ErrorCode.LINK_INERTIA_INVALID ∈ (Link.Load e).2 ∧
    (Link.Load e).1.name = (loadName e).1 ∧
    (Link.Load e).1.pose = (loadPose e).1 ∧
    (Link.Load e).1.poseRelativeTo = (loadPose e).2 ∧
    (Link.Load e).1.visuals = (loadUniqueRepeated e "visual").1 ∧
    (Link.Load e).1.collisions = (loadUniqueRepeated e "collision").1 ∧
    (Link.Load e).1.lights = (loadUniqueRepeated e "light").1 ∧
    (Link.Load e).1.sensors = (loadUniqueRepeated e "sensor").1 ∧
    (Link.Load e).1.emitters = (loadUniqueRepeated e "particle_emitter").1 ∧
    (Link.Load e).1.enableWind = e.getBoolD "enable_wind" false ∧
    (Link.Load e).1.massMatrix = (loadInertial e).1 ∧
    (Link.Load e).1.inertialPose = (loadInertial e).2 := by
  have hne : (e.name != "link") = false := by simp [hname]
  refine ⟨?_, by simp [Link.Load, hne], by simp [Link.Load, hne],
    by simp [Link.Load, hne], by simp [Link.Load, hne], by simp [Link.Load, hne],
    by simp [Link.Load, hne], by simp [Link.Load, hne], by simp [Link.Load, hne],
    by simp [Link.Load, hne], by simp [Link.Load, hne], by simp [Link.Load, hne]⟩
  simp [Link.Load, hne, hinv]

/-- C9 witness: a link with a negative mass is loaded with the
`LINK_INERTIA_INVALID` error while its name and wind flag survive. -/
theorem C9_link_inertia_invalid_witness :
    ErrorCode.LINK_INERTIA_INVALID
      ∈ (Link.Load (.mk "link" [("name", .str "l")] none
          [.mk "inertial" [] none [.mk "mass" [] (some (.num (-1))) []],
           .mk "enable_wind" [] (some (.boolV true)) []])).2 ∧
    (Link.Load (.mk "link" [("name", .str "l")] none
        [.mk "inertial" [] none [.mk "mass" [] (some (.num (-1))) []],
         .mk "enable_wind" [] (some (.boolV true)) []])).1.name
      = (loadName (.mk "link" [("name", .str "l")] none
          [.mk "inertial" [] none [.mk "mass" [] (some (.num (-1))) []],
           .mk "enable_wind" [] (some (.boolV true)) []])).1 := by
  have h := C9_link_inertia_invalid
    (.mk "link" [("name", .str "l")] none
      [.mk "inertial" [] none [.mk "mass" [] (some (.num (-1))) []],
       .mk "enable_wind" [] (some (.boolV true)) []])
    rfl (by decide)
  exact ⟨h.1, h.2.1⟩

/-! ## C5: required-children completion -/

theorem Element.appendChild_name (e t : Element) : (e.appendChild t).name = e.name := rfl

theorem Element.appendChild_attrs (e t : Element) :
    (e.appendChild t).attrs = e.attrs := rfl

theorem Element.appendChild_children (e t : Element) :
    (e.appendChild t).children = e.children ++ [t] := rfl

theorem Element.hasChild_mono (e out : Element) (k : String) (added : List Element)
    (hch : out.children = e.children ++ added) (h : e.hasChild k = true) :
    out.hasChild k = true := by
  simp only [Element.hasChild, Element.firstChildNamed, List.find?_isSome] at h ⊢
  rcases h with ⟨x, hx, hpx⟩
  exact ⟨x, by rw [hch]; exact List.mem_append_left _ hx, hpx⟩

theorem Element.mem_children_mono (e out : Element) (t : Element) (added : List Element)
    (hch : out.children = e.children ++ added) (h : t ∈ e.children) :
    t ∈ out.children := by
  rw [hch]; exact List.mem_append_left _ h

theorem Element.hasChild_appendChild_self (e t : Element) :
    (e.appendChild t).hasChild t.name = true := by
  simp only [Element.hasChild, Element.firstChildNamed, Element.appendChild_children,
    List.find?_isSome]
  exact ⟨t, List.mem_append_right _ (by simp), by simp⟩

theorem Element.hasChild_appendChild_cases (e t : Element) (k : String)
    (h : (e.appendChild t).hasChild k = true) :
    e.hasChild k = true ∨ t.name = k := by
  simp only [Element.hasChild, Element.firstChildNamed, Element.appendChild_children,
    List.find?_isSome] at h
  rcases h with ⟨x, hx, hpx⟩
  rcases List.mem_append.mp hx with hx | hx
  · exact Or.inl (by
      simp only [Element.hasChild, Element.firstChildNamed, List.find?_isSome]
      exact ⟨x, hx, hpx⟩)
  · have : x = t := by simpa using hx
    subst this
    exact Or.inr (by simpa using hpx)

theorem Element.getStr_ball_appendChild (e t : Element)
    (h : e.getStr "type" "" = "ball") :
    (e.appendChild t).getStr "type" "" = "ball" := by
  unfold Element.getStr Element.getStrPair at h ⊢
  have hattrs : (e.appendChild t).attrLookup "type" = e.attrLookup "type" := rfl
  rw [hattrs]
  cases hl : e.attrLookup "type" with
  | some v =>
    rw [hl] at h
    cases v <;> simp_all
  | none =>
    rw [hl] at h
    have hfc : (e.appendChild t).firstChildNamed "type"
        = (e.firstChildNamed "type").or (List.find? (fun c => c.name == "type") [t]) := by
      simp [Element.firstChildNamed, Element.appendChild_children, List.find?_append]
    rw [hfc]
    cases hc : e.firstChildNamed "type" with
    | some c => rw [hc] at h; simpa using h
    | none => rw [hc] at h; simp at h

/-- The completion loop only ever appends children, preserving name,
attributes and value. -/
theorem addRequiredChildren_ok_extends :
    ∀ (descs : List ElemDesc) (elem out : Element),
      addRequiredChildren elem descs = .ok out →
      out.name = elem.name ∧ out.attrs = elem.attrs ∧ out.value = elem.value ∧
      ∃ added, out.children = elem.children ++ added := by
  intro descs
  induction descs with
  | nil =>
    intro elem out h
    have : elem = out := by simpa [addRequiredChildren] using h
    subst this
    exact ⟨rfl, rfl, rfl, [], by simp⟩
  | cons d rest ih =>
    intro elem out h
    by_cases hc1 : ((d.required == "1" || d.required == "+")
        && !(elem.hasChild d.name)) = true
    · by_cases hc2 : (elem.name == "joint" && elem.getStr "type" "" != "ball") = true
      · simp [addRequiredChildren, hc1, hc2] at h
      · simp only [addRequiredChildren, hc1, hc2, if_true, if_false,
          Bool.false_eq_true] at h
        rcases ih _ _ h with ⟨h1, h2, h3, added, h4⟩
        exact ⟨by rw [h1]; rfl, by rw [h2]; rfl, by rw [h3]; rfl,
          [d.template] ++ added,
          by rw [h4, Element.appendChild_children]; simp⟩
    · simp only [addRequiredChildren, hc1, Bool.false_eq_true, if_false] at h
      exact ih _ _ h

/-- The non-joint (or ball-joint) path of the completion loop: every
missing required child gets its schema-default template appended. -/
theorem addRequiredChildren_fills :
    ∀ (descs : List ElemDesc) (elem : Element),
      (elem.name ≠ "joint" ∨ elem.getStr "type" "" = "ball") →
      (descs.map ElemDesc.name).Nodup →
      ∃ out, addRequiredChildren elem descs = .ok out ∧
        (∃ added, out.children = elem.children ++ added) ∧
        (∀ d ∈ descs, (d.required = "1" ∨ d.required = "+") →
          out.hasChild d.name = true ∧
          (elem.hasChild d.name = false → d.template ∈ out.children)) := by
  intro descs
  induction descs with
  | nil =>
    intro elem _ _
    exact ⟨elem, rfl, ⟨[], by simp⟩, by simp⟩
  | cons d rest ih =>
    intro elem h hn
    rw [List.map_cons, List.nodup_cons] at hn
    by_cases hc1 : ((d.required == "1" || d.required == "+")
        && !(elem.hasChild d.name)) = true
    · have hc2 : (elem.name == "joint" && elem.getStr "type" "" != "ball") = false := by
        rcases h with h | h
        · simp [h]
        · simp [h]
      have h' : (elem.appendChild d.template).name ≠ "joint"
          ∨ (elem.appendChild d.template).getStr "type" "" = "ball" := by
        rcases h with h | h
        · exact Or.inl (by rw [Element.appendChild_name]; exact h)
        · exact Or.inr (Element.getStr_ball_appendChild _ _ h)
      rcases ih (elem.appendChild d.template) h' hn.2 with
        ⟨out, hout, ⟨added, hch⟩, hprops⟩
      refine ⟨out, ?_, ?_, ?_⟩
      · simp only [addRequiredChildren, hc1, hc2, if_true, Bool.false_eq_true,
          if_false]
        exact hout
      · exact ⟨[d.template] ++ added,
          by rw [hch, Element.appendChild_children]; simp⟩
      · intro d' hd' hreq
        rcases List.mem_cons.mp hd' with hd' | hd'
        · rw [hd']
          constructor
          · exact Element.hasChild_mono _ _ _ _ hch
              (Element.hasChild_appendChild_self elem d.template)
          · intro _
            exact Element.mem_children_mono _ _ _ _ hch
              (by rw [Element.appendChild_children]; simp)
        · rcases hprops d' hd' hreq with ⟨hhas, hmem⟩
          refine ⟨hhas, ?_⟩
          intro hnone
          cases helem' : (elem.appendChild d.template).hasChild d'.name with
          | false => exact hmem helem'
          | true =>
            rcases Element.hasChild_appendChild_cases _ _ _ helem' with hcase | hcase
            · rw [hnone] at hcase; cases hcase
            · exfalso
              exact hn.1 (by
                rw [show d.name = d'.name from hcase]
                exact List.mem_map.mpr ⟨d', hd', rfl⟩)
    · have hrec : addRequiredChildren elem (d :: rest)
          = addRequiredChildren elem rest := by
        simp [addRequiredChildren, hc1]
      rcases ih elem h hn.2 with ⟨out, hout, hext, hprops⟩
      refine ⟨out, by rw [hrec]; exact hout, hext, ?_⟩
      intro d' hd' hreq
      rcases List.mem_cons.mp hd' with hd' | hd'
      · rw [hd']
        rw [hd'] at hreq
        have hhas : elem.hasChild d.name = true := by
          by_contra hc
          have hb : elem.hasChild d.name = false := by
            cases hx : elem.hasChild d.name with
            | false => rfl
            | true => exact absurd hx hc
          apply hc1
          rcases hreq with hr | hr <;> simp [hr, hb]
        rcases hext with ⟨added, hch⟩
        exact ⟨Element.hasChild_mono _ _ _ _ hch hhas,
          fun hcontra => by rw [hhas] at hcontra; cases hcontra⟩
      · exact hprops d' hd' hreq

/-- The joint (non-ball) path: any missing required child aborts with
`ELEMENT_MISSING`, and with none missing the element is returned as-is. -/
theorem addRequiredChildren_joint :
    ∀ (descs : List ElemDesc) (elem : Element),
      elem.name = "joint" → elem.getStr "type" "" ≠ "ball" →
      ((∃ d ∈ descs, (d.required = "1" ∨ d.required = "+")
          ∧ elem.hasChild d.name = false) →
        addRequiredChildren elem descs = .error .ELEMENT_MISSING) ∧
      ((∀ d ∈ descs, (d.required = "1" ∨ d.required = "+")
          → elem.hasChild d.name = true) →
        addRequiredChildren elem descs = .ok elem) := by
  intro descs
  induction descs with
  | nil =>
    intro elem _ _
    exact ⟨(by rintro ⟨d, hd, _⟩; cases hd), fun _ => rfl⟩
  | cons d rest ih =>
    intro elem hj hb
    by_cases hc1 : ((d.required == "1" || d.required == "+")
        && !(elem.hasChild d.name)) = true
    · have hc2 : (elem.name == "joint" && elem.getStr "type" "" != "ball") = true := by
        simp [hj, hb]
      constructor
      · intro _
        simp [addRequiredChildren, hc1, hc2]
      · intro hall
        exfalso
        have hreq : (d.required == "1" || d.required == "+") = true :=
          (Bool.and_eq_true _ _ |>.mp hc1).1
        have hmiss : elem.hasChild d.name = false := by
          have := (Bool.and_eq_true _ _ |>.mp hc1).2
          simpa using this
        have : elem.hasChild d.name = true := by
          apply hall d (List.mem_cons_self d rest)
          rcases Bool.or_eq_true _ _ |>.mp hreq with hr | hr
          · exact Or.inl (by simpa using hr)
          · exact Or.inr (by simpa using hr)
        rw [this] at hmiss; cases hmiss
    · have hrec : addRequiredChildren elem (d :: rest)
          = addRequiredChildren elem rest := by
        simp [addRequiredChildren, hc1]
      rcases ih elem hj hb with ⟨ih1, ih2⟩
      constructor
      · rintro ⟨d', hd', hreq, hmiss⟩
        rcases List.mem_cons.mp hd' with hd' | hd'
        · exfalso
          subst hd'
          apply hc1
          rcases hreq with hr | hr <;> simp [hr, hmiss]
        · rw [hrec]; exact ih1 ⟨d', hd', hreq, hmiss⟩
      · intro hall
        rw [hrec]
        exact ih2 (fun d' hd' hreq => hall d' (List.mem_cons_of_mem _ hd') hreq)

/-- C5: after children are processed, `readXml` adds every required child
description that was not specified with its schema defaults, except that
on a `<joint>` whose `type` is not `ball` a missing required child yields
`ELEMENT_MISSING` and the branch fails. -/
theorem C5_required_children (elem : Element) (descs : List ElemDesc) :
    ((elem.name = "joint" ∧ elem.getStr "type" "" ≠ "ball") →
      ((∃ d ∈ descs, (d.required = "1" ∨ d.required = "+")
          ∧ elem.hasChild d.name = false) →
        addRequiredChildren elem descs = .error .ELEMENT_MISSING) ∧
      ((∀ d ∈ descs, (d.required = "1" ∨ d.required = "+")
          → elem.hasChild d.name = true) →
        addRequiredChildren elem descs = .ok elem)) ∧
    ((elem.name ≠ "joint" ∨ elem.getStr "type" "" = "ball") →
      (descs.map ElemDesc.name).Nodup →
      ∃ out, addRequiredChildren elem descs = .ok out ∧
        (∃ added, out.children = elem.children ++ added) ∧
        (∀ d ∈ descs, (d.required = "1" ∨ d.required = "+") →
          out.hasChild d.name = true ∧
          (elem.hasChild d.name = false → d.template ∈ out.children))) :=
  ⟨fun h => addRequiredChildren_joint descs elem h.1 h.2,
   fun h hn => addRequiredChildren_fills descs elem h hn⟩

/-- C5 witness: a non-ball joint missing a required `<pose>` child aborts
with `ELEMENT_MISSING`; a link missing the same description gets the
default appended. -/
theorem C5_required_children_witness :
    addRequiredChildren (.mk "joint" [("type", .str "revolute")] none [])
      [⟨"1", .mk "pose" [] (some (.pose Pose3.zero)) []⟩]
      = .error .ELEMENT_MISSING ∧
    ∃ out, addRequiredChildren (.mk "link" [] none [])
        [⟨"1", .mk "pose" [] (some (.pose Pose3.zero)) []⟩] = .ok out ∧
      (∃ added, out.children = (Element.mk "link" [] none []).children ++ added) ∧
      (∀ d ∈ [(⟨"1", .mk "pose" [] (some (.pose Pose3.zero)) []⟩ : ElemDesc)],
        (d.required = "1" ∨ d.required = "+") →
        out.hasChild d.name = true ∧
        ((Element.mk "link" [] none []).hasChild d.name = false
          → d.template ∈ out.children)) := by
  constructor
  · exact ((C5_required_children (.mk "joint" [("type", .str "revolute")] none [])
      [⟨"1", .mk "pose" [] (some (.pose Pose3.zero)) []⟩]).1
      ⟨rfl, by decide⟩).1
      ⟨⟨"1", .mk "pose" [] (some (.pose Pose3.zero)) []⟩, by simp, Or.inl rfl,
        by decide⟩
  · exact (C5_required_children (.mk "link" [] none [])
      [⟨"1", .mk "pose" [] (some (.pose Pose3.zero)) []⟩]).2
      (Or.inl (by decide)) (by simp)

/-! ## C8: the top-level model pose pre-check -/

/-- C8 counterexample: a document whose SECOND top-level model carries a
pose with a non-empty `relative_to` passes the pre-check, because
`checkXmlFromRoot` only inspects the first `<model>` child's first
`<pose>` child; the claim would have `readDoc` fail here. -/
theorem C8_counterexample :
    anyTopLevelModelPoseHasRelativeTo
      (.mk "sdf" [] none
        [.mk "model" [("name", .str "a")] none [],
         .mk "model" [("name", .str "b")] none
           [.mk "pose" [("relative_to", .str "x")] none []]]) = true ∧
    readDocPreCheck (some (.mk "sdf" [] none
        [.mk "model" [("name", .str "a")] none [],
         .mk "model" [("name", .str "b")] none
           [.mk "pose" [("relative_to", .str "x")] none []]])) = ([], true) := by
  constructor <;> rfl

/-- C8 (amended): when the FIRST `<model>` child of the root carries a
FIRST `<pose>` child with a present, non-empty `relative_to` attribute,
the pre-check fails with `ATTRIBUTE_INVALID` and `readDoc` returns
`false` (appending `ELEMENT_INVALID`) before reading the element tree. -/
theorem C8_first_model_pose_precheck (root m p : Element) (rel : Value)
    (hm : root.firstChildNamed "model" = some m)
    (hp : m.firstChildNamed "pose" = some p)
    (hrel : p.attrLookup "relative_to" = some rel)
    (hne : rel.asString ≠ "") :
    checkXmlFromRoot (some root) = ([.ATTRIBUTE_INVALID], false) ∧
    readDocPreCheck (some root)
      = ([.ATTRIBUTE_INVALID, .ELEMENT_INVALID], false) := by
  have h1 : checkXmlFromRoot (some root) = ([.ATTRIBUTE_INVALID], false) := by
    simp [checkXmlFromRoot, hm, hp, hrel, hne]
  exact ⟨h1, by simp [readDocPreCheck, h1]⟩

/-- C8 amended-claim witness at a concrete document. -/
theorem C8_first_model_pose_precheck_witness :
    checkXmlFromRoot (some (.mk "sdf" [] none
      [.mk "model" [("name", .str "a")] none
        [.mk "pose" [("relative_to", .str "x")] none []]]))
      = ([.ATTRIBUTE_INVALID], false) ∧
    readDocPreCheck (some (.mk "sdf" [] none
      [.mk "model" [("name", .str "a")] none
        [.mk "pose" [("relative_to", .str "x")] none []]]))
      = ([.ATTRIBUTE_INVALID, .ELEMENT_INVALID], false) :=
  C8_first_model_pose_precheck _ _ _ (.str "x") rfl rfl rfl (by decide)

/-! ## C6: non-merge include top-level entity selection -/

/-- Characterization of the preference-order fold over
`model`, `actor`, `light`. -/
theorem includeFold_spec (root : Element) :
    ["model", "actor", "light"].foldl (includeSelectStep root) (none, [])
      = (if root.hasChild "model" then root.firstChildNamed "model"
         else if root.hasChild "actor" then root.firstChildNamed "actor"
         else if root.hasChild "light" then root.firstChildNamed "light"
         else none,
        if root.hasChild "model" then
          ((if root.hasChild "actor"
            then [ErrorCode.ELEMENT_INCORRECT_TYPE] else []) ++
           (if root.hasChild "light"
            then [ErrorCode.ELEMENT_INCORRECT_TYPE] else []))
        else if root.hasChild "actor" then
          (if root.hasChild "light"
           then [ErrorCode.ELEMENT_INCORRECT_TYPE] else [])
        else []) := by
  by_cases hm : root.hasChild "model" = true
  · obtain ⟨m, hm'⟩ := Option.isSome_iff_exists.mp hm
    by_cases ha : root.hasChild "actor" = true <;>
      by_cases hl : root.hasChild "light" = true <;>
      simp [includeSelectStep, hm, ha, hl, hm']
  · by_cases ha : root.hasChild "actor" = true
    · obtain ⟨a, ha'⟩ := Option.isSome_iff_exists.mp ha
      by_cases hl : root.hasChild "light" = true <;>
        simp [includeSelectStep, hm, ha, hl, ha']
    · by_cases hl : root.hasChild "light" = true
      · obtain ⟨l, hl'⟩ := Option.isSome_iff_exists.mp hl
        simp [includeSelectStep, hm, ha, hl, hl']
      · simp [includeSelectStep, hm, ha, hl]

/-- C6 counterexample: an included file whose first top-level element is a
`<light>` followed by a `<model>`.  The preference-order selection picks
the model (and `ELEMENT_INCORRECT_TYPE` is recorded), but the element
actually cloned into the including element is the light — the file's
first element — contradicting the claim that the cloned entity is the
preference-order choice. -/
theorem C6_counterexample :
    (includeTopLevelSelection
      (.mk "sdf" [] none
        [.mk "light" [("name", .str "l")] none [],
         .mk "model" [("name", .str "m")] none []])).1
      = some (.mk "model" [("name", .str "m")] none []) ∧
    ErrorCode.ELEMENT_INCORRECT_TYPE ∈ (includeTopLevelSelection
      (.mk "sdf" [] none
        [.mk "light" [("name", .str "l")] none [],
         .mk "model" [("name", .str "m")] none []])).2 ∧
    (insertIncludedElement
      (some (.mk "sdf" [] none
        [.mk "light" [("name", .str "l")] none [],
         .mk "model" [("name", .str "m")] none []]))
      false none [] (.mk "world" [] none [])).1.children
      = [.mk "light" [("name", .str "l")] none []] ∧
    (Element.mk "light" [("name", .str "l")] none [])
      ≠ (.mk "model" [("name", .str "m")] none []) := by
  refine ⟨rfl, by decide, rfl, ?_⟩
  intro h
  have h' := congrArg Element.name h
  simp [Element.name_mk] at h'

/-- C6 (amended): the override-target entity is chosen by the preference
order model > actor > light; more than one kind present, or a second
entity of the chosen kind, records `ELEMENT_INCORRECT_TYPE`; but the
element cloned into the including element is the included file's FIRST
top-level element. -/
theorem C6_include_selection (root parent : Element) (lm : Option ModelDom)
    (lerrs : List ErrorCode) :
    ((includeTopLevelSelection root).1
      = (if root.hasChild "model" then root.firstChildNamed "model"
         else if root.hasChild "actor" then root.firstChildNamed "actor"
         else if root.hasChild "light" then root.firstChildNamed "light"
         else none)) ∧
    ((((root.hasChild "model" && root.hasChild "actor")
        || (root.hasChild "model" && root.hasChild "light")
        || (root.hasChild "actor" && root.hasChild "light")) = true
      ∨ (∃ e, (includeTopLevelSelection root).1 = some e
          ∧ 2 ≤ (root.children.filter (fun c => c.name == e.name)).length)) →
      ErrorCode.ELEMENT_INCORRECT_TYPE ∈ (includeTopLevelSelection root).2) ∧
    (∀ f, root.children.head? = some f →
      insertIncludedElement (some root) false lm lerrs parent
        = (parent.appendChild f, [])) := by
  have hfold := includeFold_spec root
  refine ⟨?_, ?_, ?_⟩
  · simp only [includeTopLevelSelection, hfold]
    by_cases hm : root.hasChild "model" = true
    · obtain ⟨m, hm'⟩ := Option.isSome_iff_exists.mp hm
      simp only [hm, hm', if_true]
      split <;> simp [hm']
    · by_cases ha : root.hasChild "actor" = true
      · obtain ⟨a, ha'⟩ := Option.isSome_iff_exists.mp ha
        simp only [hm, ha, ha', if_true, Bool.false_eq_true, if_false]
        split <;> simp [ha']
      · by_cases hl : root.hasChild "light" = true
        · obtain ⟨l, hl'⟩ := Option.isSome_iff_exists.mp hl
          simp only [hm, ha, hl, hl', if_true, Bool.false_eq_true, if_false]
          split <;> simp [hl']
        · simp [hm, ha, hl]
  · intro hcase
    simp only [includeTopLevelSelection, hfold]
    by_cases hm : root.hasChild "model" = true
    · obtain ⟨m, hm'⟩ := Option.isSome_iff_exists.mp hm
      by_cases ha : root.hasChild "actor" = true
      · simp only [hm, ha, hm', if_true]
        split <;> simp
      · by_cases hl : root.hasChild "light" = true
        · simp only [hm, ha, hl, hm', if_true, Bool.false_eq_true, if_false]
          split <;> simp
        · rcases hcase with hcase | ⟨e, he, hcount⟩
          · simp [hm, ha, hl] at hcase
          · simp only [includeTopLevelSelection, hfold, hm, ha, hl, hm',
              if_true, Bool.false_eq_true, if_false, ite_self] at he
            have he' : m = e := by
              have : some m = some e := by
                split at he <;> simpa using he
              injection this
            subst he'
            simp [hm, ha, hl, hm', hcount]
    · by_cases ha : root.hasChild "actor" = true
      · obtain ⟨a, ha'⟩ := Option.isSome_iff_exists.mp ha
        by_cases hl : root.hasChild "light" = true
        · simp only [hm, ha, hl, ha', if_true, Bool.false_eq_true, if_false]
          split <;> simp
        · rcases hcase with hcase | ⟨e, he, hcount⟩
          · simp [hm, ha, hl] at hcase
          · simp only [includeTopLevelSelection, hfold, hm, ha, hl, ha',
              if_true, Bool.false_eq_true, if_false, ite_self] at he
            have he' : a = e := by
              have : some a = some e := by
                split at he <;> simpa using he
              injection this
            subst he'
            simp [hm, ha, hl, ha', hcount]
      · by_cases hl : root.hasChild "light" = true
        · obtain ⟨l, hl'⟩ := Option.isSome_iff_exists.mp hl
          rcases hcase with hcase | ⟨e, he, hcount⟩
          · simp [hm, ha, hl] at hcase
          · simp only [includeTopLevelSelection, hfold, hm, ha, hl, hl',
              if_true, Bool.false_eq_true, if_false, ite_self] at he
            have he' : l = e := by
              have : some l = some e := by
                split at he <;> simpa using he
              injection this
            subst he'
            simp [hm, ha, hl, hl', hcount]
        · rcases hcase with hcase | ⟨e, he, hcount⟩
          · simp [hm, ha, hl] at hcase
          · simp only [includeTopLevelSelection, hfold, hm, ha, hl,
              Bool.false_eq_true, if_false] at he
            cases he
  · intro f hf
    simp [insertIncludedElement, hf]

/-- C6 amended-claim witness: with only two lights in the included file,
the first light is both the preference choice and the cloned element, and
the duplicate records `ELEMENT_INCORRECT_TYPE`. -/
theorem C6_include_selection_witness :
    ((includeTopLevelSelection (.mk "sdf" [] none
        [.mk "light" [("name", .str "l1")] none [],
         .mk "light" [("name", .str "l2")] none []])).1
      = (if (Element.mk "sdf" [] none
            [.mk "light" [("name", .str "l1")] none [],
             .mk "light" [("name", .str "l2")] none []]).hasChild "model"
         then (Element.mk "sdf" [] none
            [.mk "light" [("name", .str "l1")] none [],
             .mk "light" [("name", .str "l2")] none []]).firstChildNamed "model"
         else if (Element.mk "sdf" [] none
            [.mk "light" [("name", .str "l1")] none [],
             .mk "light" [("name", .str "l2")] none []]).hasChild "actor"
         then (Element.mk "sdf" [] none
            [.mk "light" [("name", .str "l1")] none [],
             .mk "light" [("name", .str "l2")] none []]).firstChildNamed "actor"
         else if (Element.mk "sdf" [] none
            [.mk "light" [("name", .str "l1")] none [],
             .mk "light" [("name", .str "l2")] none []]).hasChild "light"
         then (Element.mk "sdf" [] none
            [.mk "light" [("name", .str "l1")] none [],
             .mk "light" [("name", .str "l2")] none []]).firstChildNamed "light"
         else none)) ∧
    insertIncludedElement (some (.mk "sdf" [] none
        [.mk "light" [("name", .str "l1")] none [],
         .mk "light" [("name", .str "l2")] none []]))
      false none [] (.mk "world" [] none [])
      = ((Element.mk "world" [] none []).appendChild
          (.mk "light" [("name", .str "l1")] none []), []) := by
  refine ⟨(C6_include_selection (.mk "sdf" [] none
      [.mk "light" [("name", .str "l1")] none [],
       .mk "light" [("name", .str "l2")] none []])
      (.mk "world" [] none []) none []).1, ?_⟩
  exact (C6_include_selection (.mk "sdf" [] none
      [.mk "light" [("name", .str "l1")] none [],
       .mk "light" [("name", .str "l2")] none []])
      (.mk "world" [] none []) none []).2.2
    (.mk "light" [("name", .str "l1")] none []) rfl

/-! ## C7: the `::` whole-tree name check -/

/-- Existence-style reading of the rewritten rule: some element reachable
without entering a skipped (`plugin` or namespaced) subtree has a `name`
attribute containing `::`. -/
def hasDoubleColonNameViolation : Element → Bool
  | .mk n attrs v children =>
    let e : Element := .mk n attrs v children
    if !shouldValidateElement e then false
    else
      (e.hasAttrSet "name" && containsDoubleColon (e.getAttr "name")) ||
      anyViolList children
where
  anyViolList : List Element → Bool
    | [] => false
    | c :: cs => hasDoubleColonNameViolation c || anyViolList cs

mutual
theorem recursive_eq_not_violation :
    ∀ e : Element,
      recursiveSiblingNoDoubleColonInNames e = !hasDoubleColonNameViolation e
  | .mk n attrs v children => by
    rw [recursiveSiblingNoDoubleColonInNames, hasDoubleColonNameViolation]
    by_cases h : shouldValidateElement (.mk n attrs v children) = true
    · simp only [h, Bool.not_true, Bool.false_eq_true, if_false]
      rw [recursiveList_eq_not_violationList children]
      simp [Bool.not_or]
    · have h' : shouldValidateElement (.mk n attrs v children) = false := by
        simpa using h
      simp [h']
theorem recursiveList_eq_not_violationList :
    ∀ l : List Element,
      recursiveSiblingNoDoubleColonInNames.noDoubleColonList l
        = !hasDoubleColonNameViolation.anyViolList l
  | [] => by
    rw [recursiveSiblingNoDoubleColonInNames.noDoubleColonList,
      hasDoubleColonNameViolation.anyViolList]
    rfl
  | c :: cs => by
    rw [recursiveSiblingNoDoubleColonInNames.noDoubleColonList,
      hasDoubleColonNameViolation.anyViolList,
      recursive_eq_not_violation c, recursiveList_eq_not_violationList cs]
    simp [Bool.not_or]
end

/-- C7 counterexample: a 1.9 document whose only `::`-containing `name`
attribute sits on a `<plugin>` element.  The claim says `readDoc` must
fail with `RESERVED_NAME`; the code's recursive check skips `<plugin>`
subtrees entirely and `readDoc` succeeds. -/
theorem C7_counterexample :
    anyElementNameHasDoubleColon
      (.mk "sdf" [("version", .str "1.9")] none
        [.mk "plugin" [("name", .str "a::b")] none []]) = true ∧
    readDocDoubleColonCheck (1, 9)
      (.mk "sdf" [("version", .str "1.9")] none
        [.mk "plugin" [("name", .str "a::b")] none []]) = ([], true) := by
  constructor
  · rw [anyElementNameHasDoubleColon]
    rw [anyElementNameHasDoubleColon.anyList, anyElementNameHasDoubleColon,
      anyElementNameHasDoubleColon.anyList]
    decide
  · rw [readDocDoubleColonCheck, recursiveSiblingNoDoubleColonInNames]
    rw [recursiveSiblingNoDoubleColonInNames.noDoubleColonList,
      recursiveSiblingNoDoubleColonInNames,
      recursiveSiblingNoDoubleColonInNames.noDoubleColonList]
    decide

/-- C7 (amended): for an original version of at least 1.8, `readDoc`
records `RESERVED_NAME` and fails exactly when some element OUTSIDE
`<plugin>` subtrees and namespaced (`:`-containing) element subtrees has a
`name` attribute containing `::`; violations inside skipped subtrees are
not detected. -/
theorem C7_doublecolon_check (v : ℕ × ℕ) (root : Element) :
    readDocDoubleColonCheck v root
      = (if versionAtLeast18 v = true ∧ hasDoubleColonNameViolation root = true
         then ([.RESERVED_NAME], false) else ([], true)) := by
  rw [readDocDoubleColonCheck, recursive_eq_not_violation root]
  by_cases h1 : versionAtLeast18 v = true <;>
    by_cases h2 : hasDoubleColonNameViolation root = true <;>
    simp [h1, h2]

/-! ## C4: load / ToElement round trip for Link and Material -/

/-- The invariants a `LinkState` read from a well-formed element enjoys;
together they make the serialization faithful. -/
def LinkState.valid (st : LinkState) : Prop :=
  isReservedName st.name = false ∧
  st.massMatrix.isValid = true ∧
  (∀ c ∈ st.visuals, c.elem.name = "visual") ∧
  (st.visuals.map ChildEntity.name).Nodup ∧
  (∀ c ∈ st.collisions, c.elem.name = "collision") ∧
  (st.collisions.map ChildEntity.name).Nodup ∧
  (∀ c ∈ st.lights, c.elem.name = "light") ∧
  (st.lights.map ChildEntity.name).Nodup ∧
  (∀ c ∈ st.sensors, c.elem.name = "sensor") ∧
  (st.sensors.map ChildEntity.name).Nodup ∧
  (∀ c ∈ st.emitters, c.elem.name = "particle_emitter") ∧
  (st.emitters.map ChildEntity.name).Nodup

theorem loadUniqueRepeated_names (parent : Element) (tag : String) :
    ∀ c ∈ (loadUniqueRepeated parent tag).1, c.elem.name = tag := by
  intro c hc
  simp only [loadUniqueRepeated] at hc
  rcases List.mem_map.mp hc with ⟨x, hx, rfl⟩
  have := List.of_mem_filter hx
  simpa using this

theorem loadUniqueRepeated_nodup (parent : Element) (tag : String)
    (h : (loadUniqueRepeated parent tag).2 = []) :
    ((loadUniqueRepeated parent tag).1.map ChildEntity.name).Nodup := by
  simp only [loadUniqueRepeated] at h ⊢
  by_cases hd : ((parent.children.filter (fun c => c.name == tag)).map
      (fun e => e.getAttr "name")).Nodup
  · simpa [List.map_map, Function.comp, ChildEntity.name] using hd
  · rw [if_neg hd] at h
    cases h

theorem ite_singleton_ne_nil {c : Prop} [Decidable c] {x : ErrorCode}
    (h : (if c then [x] else []) = []) : ¬c := by
  intro hc
  rw [if_pos hc] at h
  cases h

/-- A link state produced by an error-free `Link::Load` is valid. -/
theorem link_load_valid (e : Element) (st : LinkState)
    (h : Link.Load e = (st, [])) : st.valid := by
  by_cases hn : (e.name != "link") = true
  · rw [Link.Load, if_pos hn] at h
    simp at h
  · rw [Link.Load, if_neg hn, Prod.mk.injEq] at h
    obtain ⟨hst, herr⟩ := h
    simp only [List.append_eq_nil] at herr
    obtain ⟨⟨⟨⟨⟨⟨hname, hvis⟩, hcol⟩, hlig⟩, hsen⟩, hemi⟩, hin⟩ := herr
    have hres : isReservedName (loadName e).1 = false := by
      have := ite_singleton_ne_nil hname.2
      simpa using this
    have hmm : (loadInertial e).1.isValid = true := by
      have := ite_singleton_ne_nil hin
      simpa using this
    subst hst
    refine ⟨hres, hmm, ?_, ?_, ?_, ?_, ?_, ?_, ?_, ?_, ?_, ?_⟩
    · exact loadUniqueRepeated_names e "visual"
    · exact loadUniqueRepeated_nodup e "visual" hvis
    · exact loadUniqueRepeated_names e "collision"
    · exact loadUniqueRepeated_nodup e "collision" hcol
    · exact loadUniqueRepeated_names e "light"
    · exact loadUniqueRepeated_nodup e "light" hlig
    · exact loadUniqueRepeated_names e "sensor"
    · exact loadUniqueRepeated_nodup e "sensor" hsen
    · exact loadUniqueRepeated_names e "particle_emitter"
    · exact loadUniqueRepeated_nodup e "particle_emitter" hemi

theorem filter_map_elem_self (l : List ChildEntity) (tag : String)
    (h : ∀ c ∈ l, c.elem.name = tag) :
    (l.map (fun c => c.elem)).filter (fun c => c.name == tag)
      = l.map (fun c => c.elem) := by
  rw [List.filter_eq_self]
  intro a ha
  rcases List.mem_map.mp ha with ⟨c, hc, rfl⟩
  simp [h c hc]

theorem filter_map_elem_nil (l : List ChildEntity) (tag tagn : String)
    (h : ∀ c ∈ l, c.elem.name = tag) (hne : ¬ tag = tagn) :
    (l.map (fun c => c.elem)).filter (fun c => c.name == tagn) = [] := by
  rw [List.filter_eq_nil_iff]
  intro a ha
  rcases List.mem_map.mp ha with ⟨c, hc, rfl⟩
  simp [h c hc, hne]

theorem map_mk_elem (l : List ChildEntity) :
    (l.map (fun c => c.elem)).map (fun e => (⟨e⟩ : ChildEntity)) = l := by
  rw [List.map_map]
  have h : ((fun e => (⟨e⟩ : ChildEntity)) ∘ fun c => c.elem)
      = fun c : ChildEntity => c := by
    funext c
    rfl
  rw [h, List.map_id']

theorem map_name_map_elem (l : List ChildEntity) :
    ((l.map (fun c => c.elem)).map (fun e => e.getAttr "name"))
      = l.map ChildEntity.name := by
  rw [List.map_map]
  rfl

theorem link_toElement_filter (st : LinkState) (tag : String)
    (hpose : ¬ "pose" = tag) (hinertial : ¬ "inertial" = tag)
    (hwind : ¬ "enable_wind" = tag) :
    (Link.ToElement st).children.filter (fun c => c.name == tag)
      = ((st.collisions.map (fun c => c.elem)).filter (fun c => c.name == tag))
        ++ ((st.lights.map (fun c => c.elem)).filter (fun c => c.name == tag))
        ++ ((st.emitters.map (fun c => c.elem)).filter (fun c => c.name == tag))
        ++ ((st.sensors.map (fun c => c.elem)).filter (fun c => c.name == tag))
        ++ ((st.visuals.map (fun c => c.elem)).filter (fun c => c.name == tag)) := by
  simp only [Link.ToElement, Element.children_mk]
  rw [List.filter_append, List.filter_append, List.filter_append,
    List.filter_append, List.filter_append]
  have hfix : List.filter (fun c => c.name == tag)
      [ Element.mk "pose" (if st.poseRelativeTo != ""
          then [("relative_to", .str st.poseRelativeTo)] else [])
          (some (.pose st.pose)) [],
        Element.mk "inertial" [] none
          [.mk "pose" [] (some (.pose st.inertialPose)) [],
           .mk "mass" [] (some (.num st.massMatrix.mass)) [],
           .mk "inertia" [] none
             [.mk "ixx" [] (some (.num st.massMatrix.ixx)) [],
              .mk "ixy" [] (some (.num st.massMatrix.ixy)) [],
              .mk "ixz" [] (some (.num st.massMatrix.ixz)) [],
              .mk "iyy" [] (some (.num st.massMatrix.iyy)) [],
              .mk "iyz" [] (some (.num st.massMatrix.iyz)) [],
              .mk "izz" [] (some (.num st.massMatrix.izz)) []]],
        Element.mk "enable_wind" [] (some (.boolV st.enableWind)) []]
      = [] := by
    simp [List.filter_cons, Element.name_mk, hpose, hinertial, hwind]
  rw [hfix]
  simp

/-- The five collections of a valid link state survive the round trip. -/
theorem link_loadUnique_roundtrip (st : LinkState) (hv : st.valid) :
    loadUniqueRepeated (Link.ToElement st) "visual" = (st.visuals, []) ∧
    loadUniqueRepeated (Link.ToElement st) "collision" = (st.collisions, []) ∧
    loadUniqueRepeated (Link.ToElement st) "light" = (st.lights, []) ∧
    loadUniqueRepeated (Link.ToElement st) "sensor" = (st.sensors, []) ∧
    loadUniqueRepeated (Link.ToElement st) "particle_emitter" = (st.emitters, []) := by
  obtain ⟨_, _, hv1, hv2, hc1, hc2, hl1, hl2, hs1, hs2, he1, he2⟩ := hv
  refine ⟨?_, ?_, ?_, ?_, ?_⟩
  · have hfilter : (Link.ToElement st).children.filter (fun c => c.name == "visual")
        = st.visuals.map (fun c => c.elem) := by
      rw [link_toElement_filter st _ (by decide) (by decide) (by decide),
        filter_map_elem_self _ _ hv1,
        filter_map_elem_nil _ _ _ hc1 (by decide),
        filter_map_elem_nil _ _ _ hl1 (by decide),
        filter_map_elem_nil _ _ _ he1 (by decide),
        filter_map_elem_nil _ _ _ hs1 (by decide)]
      simp
    simp only [loadUniqueRepeated, hfilter, map_mk_elem, map_name_map_elem]
    simp [hv2]
  · have hfilter : (Link.ToElement st).children.filter (fun c => c.name == "collision")
        = st.collisions.map (fun c => c.elem) := by
      rw [link_toElement_filter st _ (by decide) (by decide) (by decide),
        filter_map_elem_self _ _ hc1,
        filter_map_elem_nil _ _ _ hv1 (by decide),
        filter_map_elem_nil _ _ _ hl1 (by decide),
        filter_map_elem_nil _ _ _ he1 (by decide),
        filter_map_elem_nil _ _ _ hs1 (by decide)]
      simp
    simp only [loadUniqueRepeated, hfilter, map_mk_elem, map_name_map_elem]
    simp [hc2]
  · have hfilter : (Link.ToElement st).children.filter (fun c => c.name == "light")
        = st.lights.map (fun c => c.elem) := by
      rw [link_toElement_filter st _ (by decide) (by decide) (by decide),
        filter_map_elem_self _ _ hl1,
        filter_map_elem_nil _ _ _ hv1 (by decide),
        filter_map_elem_nil _ _ _ hc1 (by decide),
        filter_map_elem_nil _ _ _ he1 (by decide),
        filter_map_elem_nil _ _ _ hs1 (by decide)]
      simp
    simp only [loadUniqueRepeated, hfilter, map_mk_elem, map_name_map_elem]
    simp [hl2]
  · have hfilter : (Link.ToElement st).children.filter (fun c => c.name == "sensor")
        = st.sensors.map (fun c => c.elem) := by
      rw [link_toElement_filter st _ (by decide) (by decide) (by decide),
        filter_map_elem_self _ _ hs1,
        filter_map_elem_nil _ _ _ hv1 (by decide),
        filter_map_elem_nil _ _ _ hc1 (by decide),
        filter_map_elem_nil _ _ _ hl1 (by decide),
        filter_map_elem_nil _ _ _ he1 (by decide)]
      simp
    simp only [loadUniqueRepeated, hfilter, map_mk_elem, map_name_map_elem]
    simp [hs2]
  · have hfilter : (Link.ToElement st).children.filter
          (fun c => c.name == "particle_emitter")
        = st.emitters.map (fun c => c.elem) := by
      rw [link_toElement_filter st _ (by decide) (by decide) (by decide),
        filter_map_elem_self _ _ he1,
        filter_map_elem_nil _ _ _ hv1 (by decide),
        filter_map_elem_nil _ _ _ hc1 (by decide),
        filter_map_elem_nil _ _ _ hl1 (by decide),
        filter_map_elem_nil _ _ _ hs1 (by decide)]
      simp
    simp only [loadUniqueRepeated, hfilter, map_mk_elem, map_name_map_elem]
    simp [he2]

/-- Loading the serialization of a valid link state returns that state
with no errors. -/
theorem link_valid_roundtrip (st : LinkState) (hv : st.valid) :
    Link.Load (Link.ToElement st) = (st, []) := by
  obtain ⟨hV, hC, hL, hS, hE⟩ := link_loadUnique_roundtrip st hv
  obtain ⟨hres, hmm, _, _, _, _, _, _, _, _, _, _⟩ := hv
  have hname : ((Link.ToElement st).name != "link") = false := rfl
  have hln : loadName (Link.ToElement st) = (st.name, true) := rfl
  have hli : loadInertial (Link.ToElement st) = (st.massMatrix, st.inertialPose) := rfl
  have hwind : (Link.ToElement st).getBoolD "enable_wind" false = st.enableWind := rfl
  have hlp : loadPose (Link.ToElement st) = (st.pose, st.poseRelativeTo) := by
    by_cases hpr : st.poseRelativeTo = ""
    · simp [loadPose, Link.ToElement, Element.firstChildNamed, Element.children_mk,
        List.find?_cons, hpr, Element.valuePose, Element.value, Element.getAttr,
        Element.attrLookup, Element.attrs_mk, Element.name_mk, Value.asString]
    · simp [loadPose, Link.ToElement, Element.firstChildNamed, Element.children_mk,
        List.find?_cons, hpr, Element.valuePose, Element.value, Element.getAttr,
        Element.attrLookup, Element.attrs_mk, Element.name_mk, Value.asString]
  simp only [Link.Load, hname, Bool.false_eq_true, if_false, hln, hlp, hli, hwind,
    hV, hC, hL, hS, hE, hres, hmm]
  simp

theorem metal_roundtrip (w : MetalWorkflow) :
    metalWorkflowLoad (metalWorkflowToElement w) = w := by
  rcases w with ⟨a1, a2, a3, a4, a5, a6, nt, a7, a8, a9, a10⟩
  cases nt <;> rfl

theorem specular_roundtrip (w : SpecularWorkflow) :
    specularWorkflowLoad (specularWorkflowToElement w) = w := by
  rcases w with ⟨a1, a2, a3, a4, a5, a6, a7, nt, a8, a9, a10⟩
  cases nt <;> rfl

theorem metalWorkflowToElement_name (w : MetalWorkflow) :
    (metalWorkflowToElement w).name = "metal" := rfl

theorem specularWorkflowToElement_name (w : SpecularWorkflow) :
    (specularWorkflowToElement w).name = "specular" := rfl

theorem pbr_roundtrip (p : PbrState) :
    pbrLoad (.mk "pbr" [] none
      ((match p.metal with
        | some w => [metalWorkflowToElement w]
        | none => []) ++
       (match p.specular with
        | some w => [specularWorkflowToElement w]
        | none => []))) = p := by
  rcases p with ⟨m, s⟩
  cases m with
  | none =>
    cases s with
    | none => rfl
    | some v =>
      simp [pbrLoad, Element.firstChildNamed, Element.children_mk,
        List.find?_cons, specularWorkflowToElement_name, specular_roundtrip]
  | some w =>
    cases s with
    | none =>
      simp [pbrLoad, Element.firstChildNamed, Element.children_mk,
        List.find?_cons, metalWorkflowToElement_name, metal_roundtrip]
    | some v =>
      simp [pbrLoad, Element.firstChildNamed, Element.children_mk,
        List.find?_cons, metalWorkflowToElement_name,
        specularWorkflowToElement_name, metal_roundtrip, specular_roundtrip]

/-- The invariants a `MaterialState` read from a well-formed element
enjoys. -/
def MaterialState.valid (st : MaterialState) : Prop :=
  ((st.scriptUri = "" ∧ st.scriptName = "") ∨
   (st.scriptUri ≠ "" ∧ st.scriptName ≠ ""
     ∧ st.scriptUri ≠ "__default__" ∧ st.scriptName ≠ "__default__")) ∧
  st.normalMap ≠ "__default__" ∧
  ((st.shader = ShaderType.NORMAL_MAP_OBJECTSPACE
      ∨ st.shader = ShaderType.NORMAL_MAP_TANGENTSPACE) → st.normalMap ≠ "")

theorem script_pair_ok (x : String × Bool) (err : ErrorCode)
    (h : (if (!x.2 || (if x.1 == "__default__" then "" else x.1) == "") = true
          then [err] else []) = []) :
    (if x.1 == "__default__" then "" else x.1) ≠ ""
    ∧ (if x.1 == "__default__" then "" else x.1) ≠ "__default__" := by
  have hc := ite_singleton_ne_nil h
  have hc' : (!x.2 || ((if x.1 == "__default__" then "" else x.1) == "")) = false := by
    simpa using hc
  rcases Bool.or_eq_false_iff.mp hc' with ⟨_, h2⟩
  have hne : (if x.1 == "__default__" then "" else x.1) ≠ "" := by
    simpa using h2
  refine ⟨hne, ?_⟩
  by_cases hd : (x.1 == "__default__") = true
  · rw [if_pos hd] at hne
    exact absurd rfl hne
  · rw [if_neg hd] at hne ⊢
    intro hcontra
    apply hd
    simp [hcontra]

theorem shader_nm_ok (b : ShaderType) (nmv : String) (err : ErrorCode)
    (h : (if ((b == ShaderType.NORMAL_MAP_OBJECTSPACE
            || b == ShaderType.NORMAL_MAP_TANGENTSPACE) && nmv == "") = true
          then [err] else []) = [])
    (hb : b = ShaderType.NORMAL_MAP_OBJECTSPACE
        ∨ b = ShaderType.NORMAL_MAP_TANGENTSPACE) :
    nmv ≠ "" := by
  have hc := ite_singleton_ne_nil h
  intro hcontra
  apply hc
  rcases hb with hb | hb <;> simp [hb, hcontra]

/-- A material state produced by an error-free `Material::Load` is
valid. -/
theorem material_load_valid (e : Element) (st : MaterialState)
    (h : Material.Load e = (st, [])) : st.valid := by
  by_cases hn : (e.name != "material") = true
  · rw [Material.Load, if_pos hn] at h
    simp at h
  · rw [Material.Load, if_neg hn, Prod.mk.injEq] at h
    obtain ⟨hst, herr⟩ := h
    rw [List.append_eq_nil] at herr
    obtain ⟨hscript, hshader⟩ := herr
    subst hst
    refine ⟨?_, ?_, ?_⟩
    · cases hs : e.firstChildNamed "script" with
      | none => simp [hs]
      | some s =>
        simp only [hs] at hscript ⊢
        rw [List.append_eq_nil] at hscript
        obtain ⟨huri, hname⟩ := hscript
        have h1 := script_pair_ok (s.getStrPair "uri" "") _ huri
        have h2 := script_pair_ok (s.getStrPair "name" "") _ hname
        exact Or.inr ⟨h1.1, h2.1, h1.2, h2.2⟩
    · cases hsd : e.firstChildNamed "shader" with
      | none => simp [hsd]
      | some s =>
        simp only [hsd]
        by_cases hd : (s.getStrPair "normal_map" "").1 = "__default__"
        · simp [hd, Element.getStr]
        · simp [hd, Element.getStr]
    · cases hsd : e.firstChildNamed "shader" with
      | none =>
        intro hcase
        simp [hsd] at hcase
      | some s =>
        intro hcase
        simp only [hsd] at hshader hcase ⊢
        rw [List.append_eq_nil] at hshader
        exact shader_nm_ok _ _ _ hshader.2 hcase

/-- Loading the serialization of a valid material state (given by its
fields) returns that state with no errors. -/
theorem material_roundtrip_fields (su sn : String) (sh : ShaderType) (nm : String)
    (li ds : Bool) (am di sp em : Color) (ro : ℚ) (pb : Option PbrState)
    (hscript : (su = "" ∧ sn = "")
      ∨ (su ≠ "" ∧ sn ≠ "" ∧ su ≠ "__default__" ∧ sn ≠ "__default__"))
    (hdef : nm ≠ "__default__")
    (hnmv : (sh = ShaderType.NORMAL_MAP_OBJECTSPACE
        ∨ sh = ShaderType.NORMAL_MAP_TANGENTSPACE) → nm ≠ "") :
    Material.Load (Material.ToElement ⟨su, sn, sh, nm, li, ds, am, di, sp, em, ro, pb⟩)
      = (⟨su, sn, sh, nm, li, ds, am, di, sp, em, ro, pb⟩, []) := by
  rcases hscript with ⟨h1, h2⟩ | ⟨h1, h2, h3, h4⟩
  · subst h1
    subst h2
    cases pb with
    | none =>
      cases sh with
      | PIXEL =>
        by_cases hnm0 : nm = ""
        · subst hnm0
          rfl
        · simp [Material.Load, Material.ToElement, Element.firstChildNamed,
            Element.children_mk, Element.name_mk, Element.attrs_mk, Element.value,
            Element.getStrPair, Element.getStr, Element.getQ, Element.getBoolD,
            Element.getColorD, Element.attrLookup, Element.valueStr,
            List.find?_cons, Value.asString, hnm0, hdef]
      | VERTEX =>
        by_cases hnm0 : nm = ""
        · subst hnm0
          rfl
        · simp [Material.Load, Material.ToElement, Element.firstChildNamed,
            Element.children_mk, Element.name_mk, Element.attrs_mk, Element.value,
            Element.getStrPair, Element.getStr, Element.getQ, Element.getBoolD,
            Element.getColorD, Element.attrLookup, Element.valueStr,
            List.find?_cons, Value.asString, hnm0, hdef]
      | NORMAL_MAP_OBJECTSPACE =>
        have hne : nm ≠ "" := hnmv (Or.inl rfl)
        simp [Material.Load, Material.ToElement, Element.firstChildNamed,
          Element.children_mk, Element.name_mk, Element.attrs_mk, Element.value,
          Element.getStrPair, Element.getStr, Element.getQ, Element.getBoolD,
          Element.getColorD, Element.attrLookup, Element.valueStr,
          List.find?_cons, Value.asString, hne, hdef]
      | NORMAL_MAP_TANGENTSPACE =>
        have hne : nm ≠ "" := hnmv (Or.inr rfl)
        simp [Material.Load, Material.ToElement, Element.firstChildNamed,
          Element.children_mk, Element.name_mk, Element.attrs_mk, Element.value,
          Element.getStrPair, Element.getStr, Element.getQ, Element.getBoolD,
          Element.getColorD, Element.attrLookup, Element.valueStr,
          List.find?_cons, Value.asString, hne, hdef]
    | some p =>
      cases sh with
      | PIXEL =>
        by_cases hnm0 : nm = ""
        · subst hnm0
          simp [Material.Load, Material.ToElement, Element.firstChildNamed,
            Element.children_mk, Element.name_mk, Element.attrs_mk, Element.value,
            Element.getStrPair, Element.getStr, Element.getQ, Element.getBoolD,
            Element.getColorD, Element.attrLookup, Element.valueStr,
            List.find?_cons, Value.asString, pbr_roundtrip]
        · simp [Material.Load, Material.ToElement, Element.firstChildNamed,
            Element.children_mk, Element.name_mk, Element.attrs_mk, Element.value,
            Element.getStrPair, Element.getStr, Element.getQ, Element.getBoolD,
            Element.getColorD, Element.attrLookup, Element.valueStr,
            List.find?_cons, Value.asString, hnm0, hdef, pbr_roundtrip]
      | VERTEX =>
        by_cases hnm0 : nm = ""
        · subst hnm0
          simp [Material.Load, Material.ToElement, Element.firstChildNamed,
            Element.children_mk, Element.name_mk, Element.attrs_mk, Element.value,
            Element.getStrPair, Element.getStr, Element.getQ, Element.getBoolD,
            Element.getColorD, Element.attrLookup, Element.valueStr,
            List.find?_cons, Value.asString, pbr_roundtrip]
        · simp [Material.Load, Material.ToElement, Element.firstChildNamed,
            Element.children_mk, Element.name_mk, Element.attrs_mk, Element.value,
            Element.getStrPair, Element.getStr, Element.getQ, Element.getBoolD,
            Element.getColorD, Element.attrLookup, Element.valueStr,
            List.find?_cons, Value.asString, hnm0, hdef, pbr_roundtrip]
      | NORMAL_MAP_OBJECTSPACE =>
        have hne : nm ≠ "" := hnmv (Or.inl rfl)
        simp [Material.Load, Material.ToElement, Element.firstChildNamed,
          Element.children_mk, Element.name_mk, Element.attrs_mk, Element.value,
          Element.getStrPair, Element.getStr, Element.getQ, Element.getBoolD,
          Element.getColorD, Element.attrLookup, Element.valueStr,
          List.find?_cons, Value.asString, hne, hdef, pbr_roundtrip]
      | NORMAL_MAP_TANGENTSPACE =>
        have hne : nm ≠ "" := hnmv (Or.inr rfl)
        simp [Material.Load, Material.ToElement, Element.firstChildNamed,
          Element.children_mk, Element.name_mk, Element.attrs_mk, Element.value,
          Element.getStrPair, Element.getStr, Element.getQ, Element.getBoolD,
          Element.getColorD, Element.attrLookup, Element.valueStr,
          List.find?_cons, Value.asString, hne, hdef, pbr_roundtrip]
  · cases pb with
    | none =>
      cases sh with
      | PIXEL =>
        by_cases hnm0 : nm = ""
        · subst hnm0
          simp [Material.Load, Material.ToElement, Element.firstChildNamed,
            Element.children_mk, Element.name_mk, Element.attrs_mk, Element.value,
            Element.getStrPair, Element.getStr, Element.getQ, Element.getBoolD,
            Element.getColorD, Element.attrLookup, Element.valueStr,
            List.find?_cons, Value.asString, h1, h2, h3, h4]
        · simp [Material.Load, Material.ToElement, Element.firstChildNamed,
            Element.children_mk, Element.name_mk, Element.attrs_mk, Element.value,
            Element.getStrPair, Element.getStr, Element.getQ, Element.getBoolD,
            Element.getColorD, Element.attrLookup, Element.valueStr,
            List.find?_cons, Value.asString, h1, h2, h3, h4, hnm0, hdef]
      | VERTEX =>
        by_cases hnm0 : nm = ""
        · subst hnm0
          simp [Material.Load, Material.ToElement, Element.firstChildNamed,
            Element.children_mk, Element.name_mk, Element.attrs_mk, Element.value,
            Element.getStrPair, Element.getStr, Element.getQ, Element.getBoolD,
            Element.getColorD, Element.attrLookup, Element.valueStr,
            List.find?_cons, Value.asString, h1, h2, h3, h4]
        · simp [Material.Load, Material.ToElement, Element.firstChildNamed,
            Element.children_mk, Element.name_mk, Element.attrs_mk, Element.value,
            Element.getStrPair, Element.getStr, Element.getQ, Element.getBoolD,
            Element.getColorD, Element.attrLookup, Element.valueStr,
            List.find?_cons, Value.asString, h1, h2, h3, h4, hnm0, hdef]
      | NORMAL_MAP_OBJECTSPACE =>
        have hne : nm ≠ "" := hnmv (Or.inl rfl)
        simp [Material.Load, Material.ToElement, Element.firstChildNamed,
          Element.children_mk, Element.name_mk, Element.attrs_mk, Element.value,
          Element.getStrPair, Element.getStr, Element.getQ, Element.getBoolD,
          Element.getColorD, Element.attrLookup, Element.valueStr,
          List.find?_cons, Value.asString, h1, h2, h3, h4, hne, hdef]
      | NORMAL_MAP_TANGENTSPACE =>
        have hne : nm ≠ "" := hnmv (Or.inr rfl)
        simp [Material.Load, Material.ToElement, Element.firstChildNamed,
          Element.children_mk, Element.name_mk, Element.attrs_mk, Element.value,
          Element.getStrPair, Element.getStr, Element.getQ, Element.getBoolD,
          Element.getColorD, Element.attrLookup, Element.valueStr,
          List.find?_cons, Value.asString, h1, h2, h3, h4, hne, hdef]
    | some p =>
      cases sh with
      | PIXEL =>
        by_cases hnm0 : nm = ""
        · subst hnm0
          simp [Material.Load, Material.ToElement, Element.firstChildNamed,
            Element.children_mk, Element.name_mk, Element.attrs_mk, Element.value,
            Element.getStrPair, Element.getStr, Element.getQ, Element.getBoolD,
            Element.getColorD, Element.attrLookup, Element.valueStr,
            List.find?_cons, Value.asString, h1, h2, h3, h4, pbr_roundtrip]
        · simp [Material.Load, Material.ToElement, Element.firstChildNamed,
            Element.children_mk, Element.name_mk, Element.attrs_mk, Element.value,
            Element.getStrPair, Element.getStr, Element.getQ, Element.getBoolD,
            Element.getColorD, Element.attrLookup, Element.valueStr,
            List.find?_cons, Value.asString, h1, h2, h3, h4, hnm0, hdef,
            pbr_roundtrip]
      | VERTEX =>
        by_cases hnm0 : nm = ""
        · subst hnm0
          simp [Material.Load, Material.ToElement, Element.firstChildNamed,
            Element.children_mk, Element.name_mk, Element.attrs_mk, Element.value,
            Element.getStrPair, Element.getStr, Element.getQ, Element.getBoolD,
            Element.getColorD, Element.attrLookup, Element.valueStr,
            List.find?_cons, Value.asString, h1, h2, h3, h4, pbr_roundtrip]
        · simp [Material.Load, Material.ToElement, Element.firstChildNamed,
            Element.children_mk, Element.name_mk, Element.attrs_mk, Element.value,
            Element.getStrPair, Element.getStr, Element.getQ, Element.getBoolD,
            Element.getColorD, Element.attrLookup, Element.valueStr,
            List.find?_cons, Value.asString, h1, h2, h3, h4, hnm0, hdef,
            pbr_roundtrip]
      | NORMAL_MAP_OBJECTSPACE =>
        have hne : nm ≠ "" := hnmv (Or.inl rfl)
        simp [Material.Load, Material.ToElement, Element.firstChildNamed,
          Element.children_mk, Element.name_mk, Element.attrs_mk, Element.value,
          Element.getStrPair, Element.getStr, Element.getQ, Element.getBoolD,
          Element.getColorD, Element.attrLookup, Element.valueStr,
          List.find?_cons, Value.asString, h1, h2, h3, h4, hne, hdef,
          pbr_roundtrip]
      | NORMAL_MAP_TANGENTSPACE =>
        have hne : nm ≠ "" := hnmv (Or.inr rfl)
        simp [Material.Load, Material.ToElement, Element.firstChildNamed,
          Element.children_mk, Element.name_mk, Element.attrs_mk, Element.value,
          Element.getStrPair, Element.getStr, Element.getQ, Element.getBoolD,
          Element.getColorD, Element.attrLookup, Element.valueStr,
          List.find?_cons, Value.asString, h1, h2, h3, h4, hne, hdef,
          pbr_roundtrip]

/-- Loading the serialization of a valid material state returns that
state with no errors. -/
theorem material_valid_roundtrip (st : MaterialState) (hv : st.valid) :
    Material.Load (Material.ToElement st) = (st, []) := by
  obtain ⟨hscript, hdef, hnmv⟩ := hv
  rcases st with ⟨su, sn, sh, nm, li, ds, am, di, sp, em, ro, pb⟩
  exact material_roundtrip_fields su sn sh nm li ds am di sp em ro pb
    hscript hdef hnmv

/-- C4: loading, serializing with `ToElement`, and loading again
reproduces the domain entity: for both `Link` and `Material`, an
error-free `Load` followed by `ToElement` followed by `Load` returns the
same state with no errors. -/
theorem C4_load_toElement_roundtrip :
    (∀ e st, Link.Load e = (st, []) →
      Link.Load (Link.ToElement st) = (st, [])) ∧
    (∀ e st, Material.Load e = (st, []) →
      Material.Load (Material.ToElement st) = (st, [])) :=
  ⟨fun e st h => link_valid_roundtrip st (link_load_valid e st h),
   fun e st h => material_valid_roundtrip st (material_load_valid e st h)⟩

/-- C4 witness: the round trip at a concrete link and a concrete
material. -/
theorem C4_load_toElement_roundtrip_witness :
    Link.Load (Link.ToElement
      ⟨"l", Pose3.zero, "", [], [], [], [], [],
        MassMatrix.default1, Pose3.zero, false⟩)
      = (⟨"l", Pose3.zero, "", [], [], [], [], [],
          MassMatrix.default1, Pose3.zero, false⟩, []) ∧
    Material.Load (Material.ToElement
      ⟨"", "", .PIXEL, "", true, false, ⟨0,0,0,1⟩, ⟨1,0,0,1⟩, ⟨0,0,0,1⟩,
        ⟨0,0,0,1⟩, 0, none⟩)
      = (⟨"", "", .PIXEL, "", true, false, ⟨0,0,0,1⟩, ⟨1,0,0,1⟩, ⟨0,0,0,1⟩,
          ⟨0,0,0,1⟩, 0, none⟩, []) := by
  have hmm : (MassMatrix.mk 1 1 1 1 0 0 0).isValid = true := by
    norm_num [MassMatrix.isValid]
  constructor
  · apply C4_load_toElement_roundtrip.1 (.mk "link" [("name", .str "l")] none [])
    simp [Link.Load, loadName, loadPose, loadInertial, loadUniqueRepeated,
      isReservedName, charsStartWithDoubleUnderscore, Element.firstChildNamed,
      Element.children_mk, Element.attrLookup, Element.attrs_mk, Element.name_mk,
      Element.getBoolD, Value.asString, hmm, MassMatrix.default1]
  · apply C4_load_toElement_roundtrip.2 (.mk "material" [] none
      [.mk "diffuse" [] (some (.color ⟨1,0,0,1⟩)) []])
    rfl
